import Mathlib

/-!
Verification of the Security Scoring & Traffic Analysis Engine.

This file gives a shallow embedding of the engine's core:
`SecurityScorer.calculate_api_score` (with its nine component scorers and
`_get_security_level`) from `modules/security_scorer.py`, and
`ElasticsearchAnalyzer._parse_traffic_stats` / `check_sensitive_fields`
from `modules/elasticsearch_analyzer.py`.

Modelling conventions:
- Python numbers are rationals (`ℚ`) or naturals/integers where the data
  model fixes an integer type; `round(x, n)` is modelled with Mathlib's
  `round`, which rounds half away from zero upward while Python rounds
  half to even — the two differ only on exact decimal ties, which occur
  in none of the statements below.
- Python text that is split, searched or parsed is modelled as `List Char`
  (`Chars`); text that is only compared or concatenated uses `String`.
  `int(...)` string parsing is modelled for the sign-and-digits forms;
  Python's tolerance of surrounding whitespace and underscores is not
  modelled (no such inputs occur here).
- Dictionaries read with `.get(key, default)` are modelled as structures
  whose field holds the default when the key is absent; the one place
  where key *presence* itself matters (`check_sensitive_fields` failure
  records) uses `Option`-valued fields instead.
- The impure `calculated_at` timestamp of the score report is omitted.
-/

/-! ### Basic helpers for Python string and number operations -/

/-- Python strings under character-level operations. -/
abbrev Chars := List Char

/-- Python `str.lower()` (ASCII case folding, which covers all data here). -/
def lowerChars (s : Chars) : Chars := s.map Char.toLower

/-- Prefix test used by the substring check. -/
def isPrefixB : Chars → Chars → Bool
  | [], _ => true
  | _ :: _, [] => false
  | a :: as, b :: bs => a == b && isPrefixB as bs

/-- Python `needle in hay` for strings: contiguous substring containment. -/
def isSubChars (needle : Chars) : Chars → Bool
  | [] => needle.isEmpty
  | c :: t => isPrefixB needle (c :: t) || isSubChars needle t

/-- Python `str.split(sep)` for a one-character separator. -/
def splitOnChar (sep : Char) : Chars → List Chars
  | [] => [[]]
  | c :: cs =>
    let r := splitOnChar sep cs
    if c = sep then [] :: r
    else (c :: r.headD []) :: r.tail

/-- Digit accumulator for `pyInt?`. -/
def digitsValAux (acc : Nat) : Chars → Option Nat
  | [] => some acc
  | c :: cs => if c.isDigit then digitsValAux (acc * 10 + (c.toNat - 48)) cs else none

/-- Value of a nonempty all-digit string. -/
def digitsVal? : Chars → Option Nat
  | [] => none
  | c :: cs => digitsValAux 0 (c :: cs)

/-- Python `int(s)` on a string: optional sign followed by digits. -/
def pyInt? : Chars → Option Int
  | '-' :: rest => (digitsVal? rest).map (fun n => -(n : Int))
  | '+' :: rest => (digitsVal? rest).map (fun n => (n : Int))
  | s => (digitsVal? s).map (fun n => (n : Int))

/-- Python `int(x)` on a number: truncation toward zero. -/
def pyTrunc (x : ℚ) : Int := if 0 ≤ x then ⌊x⌋ else ⌈x⌉

/-- Python `round(x, 2)`. -/
def round2 (x : ℚ) : ℚ := ((round (x * 100) : ℤ) : ℚ) / 100

/-- Python `f"{h:02d}"`: zero-pad to width two. -/
def pad2 (h : Int) : String :=
  let s := toString h
  if s.length < 2 then "0" ++ s else s

/-- Python `f"{x:.1f}"`: fixed-point rendering with one decimal. -/
def fmt1 (x : ℚ) : String :=
  let n := round (x * 10)
  (if n < 0 then "-" else "") ++ toString (n.natAbs / 10) ++ "." ++ toString (n.natAbs % 10)

/-- Python `", ".join(items)`. -/
def joinComma : List String → String
  | [] => ""
  | [s] => s
  | s :: rest => s ++ ", " ++ joinComma rest

/-- Python `min` of a nonempty integer list (default for the empty case). -/
def listMinI (l : List Int) (d : Int) : Int :=
  match l with
  | [] => d
  | x :: xs => xs.foldl min x

/-- Python `max` of a nonempty integer list (default for the empty case). -/
def listMaxI (l : List Int) (d : Int) : Int :=
  match l with
  | [] => d
  | x :: xs => xs.foldl max x

/-- Python `max` of a nonempty rational list (default for the empty case). -/
def listMaxQ (l : List ℚ) (d : ℚ) : ℚ :=
  match l with
  | [] => d
  | x :: xs => xs.foldl max x

/-! ### Data model of the SecurityScorer inputs and output -/

/-- One structured recommendation, as built by the component scorers. -/
structure Recommendation where
  severity : String
  category : String
  message : String
  action : String
deriving Repr, DecidableEq

/-- One policy reference: `p['type']` and the optional `enabled` flag
(`p.get('enabled', True)` defaults it to true when absent). -/
structure Policy where
  type' : String
  enabled : Option Bool
deriving Repr, DecidableEq

/-- The `policies` dictionary: request, response and error policy lists,
each defaulting to empty when absent. -/
structure PoliciesCfg where
  request : List Policy := []
  response : List Policy := []
  error : List Policy := []
deriving Repr, DecidableEq

/-- The `client_ssl` summary read by `_score_ssl_tls` (the
`non_ssl_environments` entries are kept as their `environment` names). -/
structure ClientSsl where
  total : ℚ := 0
  ssl_count : ℚ := 0
  all_ssl : Bool := false
  non_ssl_environments : List String := []
deriving Repr, DecidableEq

/-- The `backend_ssl` summary read by `_score_ssl_tls`. -/
structure BackendSsl where
  total : ℚ := 0
  ssl_count : ℚ := 0
  all_ssl : Bool := false
  non_ssl_addresses : List String := []
deriving Repr, DecidableEq

/-- API configuration snapshot as read by the scorer. -/
structure ApiConfig where
  policies : PoliciesCfg := {}
  client_ssl : ClientSsl := {}
  backend_ssl : BackendSsl := {}
deriving Repr, DecidableEq

/-- Per-keyword record of the sensitive-data block as read by
`_score_logging` (only `percentage` is consulted there). -/
structure KwScoreInfo where
  percentage : ℚ := 0
deriving Repr, DecidableEq

/-- The `sensitive_data` block of the traffic stats as read by the scorer. -/
structure SensitiveDataIn where
  has_sensitive_data : Bool := false
  sensitive_keywords : List (String × KwScoreInfo) := []
  total_logs_checked : Nat := 0
deriving Repr, DecidableEq

/-- Traffic statistics dictionary as read by the scorer, with the
defaults the `.get` calls supply. -/
structure TrafficIn where
  total_requests : Nat := 0
  avg_requests_per_hour : ℚ := 0
  max_requests_per_hour : ℚ := 0
  error_rate : ℚ := 0
  unique_ips : Nat := 0
  peak_hours : List Int := []
  sensitive_data : SensitiveDataIn := {}
deriving Repr, DecidableEq

/-- Score report returned by `calculate_api_score` (sans the impure
`calculated_at` timestamp). -/
structure ScoreReport where
  total_score : ℚ
  security_level : String
  component_scores : List (String × ℚ)
  recommendations : List Recommendation
deriving Repr, DecidableEq

/-- Concatenation of the request, response and error policy lists, as done
at the top of every component scorer. -/
def allPolicies (cfg : ApiConfig) : List Policy :=
  cfg.policies.request ++ cfg.policies.response ++ cfg.policies.error

/-- Enabled-policy check of the shape
`any(p['type'] == t and p.get('enabled', True) for p in all_policies)`. -/
def hasEnabledPolicy (cfg : ApiConfig) (t : String) : Bool :=
  (allPolicies cfg).any (fun p => p.type' == t && p.enabled.getD true)

/-! ### The nine component scorers -/

/-- Embedding of `_score_ip_whitelist`. -/
def scoreIpWhitelist (cfg : ApiConfig) (stats : TrafficIn) : ℚ × List Recommendation :=
  if hasEnabledPolicy cfg "PolicyIpWhite" then (100, [])
  else
    let unique_ips := stats.unique_ips
    if unique_ips > 0 && unique_ips ≤ 10 then
      (0, [{ severity := "medium", category := "ip_whitelist",
             message := "API has " ++ toString unique_ips ++
               " unique IPs but no IP whitelist configured. Consider adding IP whitelist policy.",
             action := "Add PolicyIpWhite to restrict access to known IPs" }])
    else (0, [])

/-- Embedding of `_score_throttling`. -/
def scoreThrottling (cfg : ApiConfig) (stats : TrafficIn) : ℚ × List Recommendation :=
  let has_throttling := (allPolicies cfg).any (fun p =>
    (p.type' == "PolicyApiBasedThrottling" || p.type' == "PolicyEndpointRateLimit") &&
      p.enabled.getD true)
  if has_throttling then (100, [])
  else
    let max_per_hour := stats.max_requests_per_hour
    if max_per_hour > 1000 then
      (0, [{ severity := "high", category := "throttling",
             message := "High traffic API (" ++ toString max_per_hour ++
               " req/hour) without throttling. Risk of abuse.",
             action := "Add throttling policy with limit ~" ++
               toString (pyTrunc (max_per_hour * (12/10))) ++ " req/hour" }])
    else if max_per_hour > 0 then
      (0, [{ severity := "low", category := "throttling",
             message := "No throttling policy configured.",
             action := "Consider adding throttling policy with limit ~" ++
               toString (pyTrunc (max_per_hour * (12/10))) ++ " req/hour" }])
    else (0, [])

/-- Embedding of `_score_quota`. -/
def scoreQuota (cfg : ApiConfig) (stats : TrafficIn) : ℚ × List Recommendation :=
  if hasEnabledPolicy cfg "PolicyApiBasedQuota" then (100, [])
  else
    if stats.total_requests > 10000 then
      (50, [{ severity := "medium", category := "quota",
              message := "High-volume API without quota limits.",
              action := "Consider adding quota policy for cost control and fair usage" }])
    else (50, [])

/-- The fixed list of authentication policy types from `_score_authentication`. -/
def authPolicyTypes : List String :=
  ["PolicyApiAuthentication", "PolicyBasicAuthentication",
   "PolicyJwtAuthentication", "PolicyOauth2Authentication",
   "PolicyMTLSAuthentication", "PolicyDigestAuthentication"]

/-- Embedding of `_score_authentication`. -/
def scoreAuthentication (cfg : ApiConfig) : ℚ × List Recommendation :=
  let auth_policies := (allPolicies cfg).filter (fun p =>
    authPolicyTypes.contains p.type' && p.enabled.getD true)
  if auth_policies.isEmpty then
    (0, [{ severity := "critical", category := "authentication",
           message := "No authentication policy configured. API is publicly accessible.",
           action := "Add authentication policy (OAuth2, JWT, or API Key recommended)" }])
  else
    let auth_types := auth_policies.map (·.type')
    if auth_types.contains "PolicyOauth2Authentication" ||
        auth_types.contains "PolicyJwtAuthentication" then (100, [])
    else if auth_types.contains "PolicyMTLSAuthentication" then (100, [])
    else if auth_types.contains "PolicyApiAuthentication" then (75, [])
    else if auth_types.contains "PolicyBasicAuthentication" then
      (50, [{ severity := "medium", category := "authentication",
              message := "Using Basic Auth. Consider upgrading to OAuth2 or JWT.",
              action := "Upgrade to stronger authentication method" }])
    else (0, [])

/-- Embedding of `_score_allowed_hours`. -/
def scoreAllowedHours (cfg : ApiConfig) (stats : TrafficIn) : ℚ × List Recommendation :=
  if hasEnabledPolicy cfg "PolicyAllowedHours" then (100, [])
  else
    let total_requests := stats.total_requests
    let peak_hours := stats.peak_hours
    if total_requests > 100 && !peak_hours.isEmpty then
      if !peak_hours.isEmpty && peak_hours.all (fun h => decide (8 ≤ h) && decide (h ≤ 18)) then
        let phs := joinComma ((peak_hours.mergeSort (fun a b => decide (a ≤ b))).map
          (fun h => pad2 h ++ ":00"))
        (70, [{ severity := "low", category := "allowed_hours",
                message := "API traffic is concentrated in business hours (peak: " ++ phs ++
                  "). Consider restricting access to business hours only.",
                action := "Add PolicyAllowedHours to restrict access to " ++
                  pad2 (listMinI peak_hours 0) ++ ":00-" ++
                  pad2 (listMaxI peak_hours 0 + 1) ++ ":00" }])
      else if peak_hours.length ≤ 8 then
        let phs := joinComma ((peak_hours.mergeSort (fun a b => decide (a ≤ b))).map
          (fun h => pad2 h ++ ":00"))
        (75, [{ severity := "low", category := "allowed_hours",
                message := "API traffic is concentrated in specific hours (peak: " ++ phs ++
                  "). Consider time-based access restriction.",
                action := "Add PolicyAllowedHours to restrict access to " ++
                  pad2 (listMinI peak_hours 0) ++ ":00-" ++
                  pad2 (listMaxI peak_hours 0 + 1) ++ ":00" }])
      else (100, [])
    else (100, [])

/-- Embedding of `_score_traffic_anomaly`. -/
def scoreTrafficAnomaly (stats : TrafficIn) : ℚ × List Recommendation :=
  let avg_per_hour := stats.avg_requests_per_hour
  let max_per_hour := stats.max_requests_per_hour
  if avg_per_hour > 0 then
    let spike := max_per_hour / avg_per_hour
    if spike > 10 then
      (50, [{ severity := "high", category := "anomaly",
              message := "Severe traffic spike detected (" ++ fmt1 spike ++
                "x average). Possible attack or misconfiguration.",
              action := "Investigate traffic patterns and consider adding rate limiting" }])
    else if spike > 5 then
      (70, [{ severity := "medium", category := "anomaly",
              message := "Significant traffic spike detected (" ++ fmt1 spike ++ "x average).",
              action := "Monitor traffic patterns and ensure adequate throttling" }])
    else (100, [])
  else (100, [])

/-- Embedding of `_score_error_rate`. -/
def scoreErrorRate (stats : TrafficIn) : ℚ × List Recommendation :=
  let er := stats.error_rate
  if er > 20 then
    (30, [{ severity := "critical", category := "errors",
            message := "Very high error rate (" ++ fmt1 er ++ "%). Service may be failing.",
            action := "Investigate backend service health and error causes" }])
  else if er > 10 then
    (60, [{ severity := "high", category := "errors",
            message := "High error rate (" ++ fmt1 er ++ "%).",
            action := "Review error logs and improve error handling" }])
  else if er > 5 then
    (80, [{ severity := "medium", category := "errors",
            message := "Elevated error rate (" ++ fmt1 er ++ "%).",
            action := "Monitor error trends and investigate common failures" }])
  else (100, [])

/-- Embedding of `_score_ssl_tls`. -/
def scoreSslTls (cfg : ApiConfig) : ℚ × List Recommendation :=
  let cs := cfg.client_ssl
  let bs := cfg.backend_ssl
  let client : ℚ × List Recommendation :=
    if cs.total > 0 then
      if cs.all_ssl then (100, [])
      else
        let sc := cs.ssl_count / cs.total * 100
        if !cs.non_ssl_environments.isEmpty then
          (sc, [{ severity := "high", category := "ssl_tls",
                  message := "Client connections without SSL/TLS detected in: " ++
                    joinComma (cs.non_ssl_environments.take 3),
                  action := "Enable HTTPS for all client-facing endpoints to encrypt data in transit" }])
        else (sc, [])
    else (100, [])
  let backend : ℚ × List Recommendation :=
    if bs.total > 0 then
      if bs.all_ssl then (100, [])
      else
        let sc := bs.ssl_count / bs.total * 100
        if !bs.non_ssl_addresses.isEmpty then
          (sc, [{ severity := "medium", category := "ssl_tls",
                  message := "Backend connections without SSL/TLS: " ++
                    joinComma (bs.non_ssl_addresses.take 3),
                  action := "Use HTTPS for backend service connections to ensure end-to-end encryption" }])
        else (sc, [])
    else (100, [])
  (round2 (client.1 * (6/10) + backend.1 * (4/10)), client.2 ++ backend.2)

/-- Embedding of `_score_logging`. -/
def scoreLogging (_cfg : ApiConfig) (stats : TrafficIn) : ℚ × List Recommendation :=
  let sd := stats.sensitive_data
  if sd.has_sensitive_data then
    let total_logs := sd.total_logs_checked
    let keyword_list := (sd.sensitive_keywords.filter (fun p => p.2.percentage > 0)).map
      (fun p => p.1 ++ " (" ++ fmt1 p.2.percentage ++ "%)")
    if !keyword_list.isEmpty then
      let keywords_str := joinComma (keyword_list.take 5)
      let max_percentage := listMaxQ (sd.sensitive_keywords.map (fun p => p.2.percentage)) 0
      let sv : ℚ × String :=
        if max_percentage > 80 then (10, "critical")
        else if max_percentage > 50 then (20, "critical")
        else if max_percentage > 20 then (40, "high")
        else if max_percentage > 10 then (50, "high")
        else if max_percentage > 5 then (60, "medium")
        else if max_percentage > 1 then (70, "low")
        else (80, "low")
      (sv.1, [{ severity := sv.2, category := "logging",
                message := "Sensitive data detected in logs: " ++ keywords_str ++
                  ". Checked " ++ toString total_logs ++ " logs.",
                action := "Configure log masking/filtering to prevent sensitive data (TC, phone, password, etc.) from being logged" }])
    else (100, [])
  else (100, [])

/-! ### Total score and security level -/

/-- Externally supplied weight mapping. -/
abbrev Weights := List (String × ℚ)

/-- Python `self.weights.get(component, 0)`. -/
def wgetW (w : Weights) (name : String) : ℚ := (w.lookup name).getD 0

/-- The weighted-total loop of `calculate_api_score`:
`total += score * weights.get(component, 0)` over the scores mapping. -/
def calcTotal (scores : List (String × ℚ)) (w : Weights) : ℚ :=
  scores.foldl (fun acc p => acc + p.2 * wgetW w p.1) 0

/-- Embedding of `_get_security_level`. -/
def getSecurityLevel (score : ℚ) : String :=
  if score ≥ 90 then "Excellent"
  else if score ≥ 75 then "Good"
  else if score ≥ 60 then "Fair"
  else if score ≥ 40 then "Poor"
  else "Critical"

/-- The `scores` mapping built by `calculate_api_score`, in its fixed
component order. -/
def componentScores (cfg : ApiConfig) (stats : TrafficIn) : List (String × ℚ) :=
  [("ip_whitelist_coverage", (scoreIpWhitelist cfg stats).1),
   ("throttling_configured", (scoreThrottling cfg stats).1),
   ("quota_configured", (scoreQuota cfg stats).1),
   ("authentication_strength", (scoreAuthentication cfg).1),
   ("allowed_hours", (scoreAllowedHours cfg stats).1),
   ("traffic_anomaly", (scoreTrafficAnomaly stats).1),
   ("error_rate", (scoreErrorRate stats).1),
   ("ssl_tls_status", (scoreSslTls cfg).1),
   ("logging_status", (scoreLogging cfg stats).1)]

/-- The `recommendations` list built by `calculate_api_score`: per-component
recommendations concatenated in the fixed component order. -/
def allRecommendations (cfg : ApiConfig) (stats : TrafficIn) : List Recommendation :=
  (scoreIpWhitelist cfg stats).2 ++ (scoreThrottling cfg stats).2 ++
    (scoreQuota cfg stats).2 ++ (scoreAuthentication cfg).2 ++
    (scoreAllowedHours cfg stats).2 ++ (scoreTrafficAnomaly stats).2 ++
    (scoreErrorRate stats).2 ++ (scoreSslTls cfg).2 ++ (scoreLogging cfg stats).2

/-- Embedding of `calculate_api_score`. -/
def calculateApiScore (w : Weights) (cfg : ApiConfig) (stats : TrafficIn) : ScoreReport :=
  let total := calcTotal (componentScores cfg stats) w
  { total_score := round2 total
    security_level := getSecurityLevel total
    component_scores := componentScores cfg stats
    recommendations := allRecommendations cfg stats }

/-! ### Data model of the traffic-stats aggregator -/

/-- One hourly histogram sub-bucket: `key_as_string` may be absent, and
`doc_count` defaults to 0 when read with `.get('doc_count', 0)`. -/
structure HourBucket where
  key_as_string : Option Chars := none
  doc_count : Nat := 0
deriving Repr, DecidableEq

/-- One per-entity aggregation bucket, with the sub-aggregations
`_parse_traffic_stats` reads (defaults mirror the `.get` fallbacks). -/
structure ApiBucket where
  key : String := ""
  doc_count : Nat := 0
  api_name_buckets : List String := []
  by_hour : List HourBucket := []
  unique_ips_value : ℚ := 0
  unique_users_value : ℚ := 0
  top_ips : List (String × Nat) := []
  top_users : List (String × Nat) := []
  avg_response_time : ℚ := 0
  status_codes : List (Int × Nat) := []
  error_count : Nat := 0
deriving Repr, DecidableEq

/-- The Elasticsearch search result as read by `_parse_traffic_stats`
(`hits.total.value` is read into a local that is never used again). -/
structure EsResult where
  hits_total : Nat := 0
  api_buckets : List ApiBucket := []
deriving Repr, DecidableEq

/-- One per-entity statistics record of the aggregator output. -/
structure TrafficRecord where
  api_name : String
  total_requests : Nat
  avg_requests_per_hour : ℚ
  max_requests_per_hour : Nat
  max_requests_per_minute : Int
  peak_hour : Option Chars
  peak_hours : List Int
  unique_ips : Int
  unique_users : Int
  top_ips : List (String × Nat)
  top_users : List (String × Nat)
  avg_response_time_ms : ℚ
  status_codes : List (Int × Nat)
  error_count : Nat
  error_rate : ℚ
  success_rate : ℚ
deriving Repr, DecidableEq

/-- Hour-of-day extraction from a histogram timestamp:
`int(ts.split('T')[1].split(':')[0])` when the string contains `T`, else
`int(ts.split(' ')[1].split(':')[0])`; any failure is skipped (`except: pass`). -/
def extractHour (ts : Chars) : Option Int :=
  let part? :=
    if ts.contains 'T' then
      ((splitOnChar 'T' ts).get? 1).map (fun r => (splitOnChar ':' r).headD [])
    else
      ((splitOnChar ' ' ts).get? 1).map (fun r => (splitOnChar ':' r).headD [])
  part?.bind pyInt?

/-- The `hourly_distribution[hour] += count` update on a `defaultdict(int)`
kept in insertion order. -/
def addHour (l : List (Int × Nat)) (h : Int) (c : Nat) : List (Int × Nat) :=
  if l.any (fun p => p.1 == h) then
    l.map (fun p => if p.1 == h then (p.1, p.2 + c) else p)
  else l ++ [(h, c)]

/-- One step of the hour-of-day accumulation loop: read the bucket's
timestamp with `''` as default, skip empty or unparsable ones, else add
the count under the extracted hour. -/
def hdStep (acc : List (Int × Nat)) (b : HourBucket) : List (Int × Nat) :=
  let ts := b.key_as_string.getD []
  if ts.isEmpty then acc
  else
    match extractHour ts with
    | some h => addHour acc h b.doc_count
    | none => acc

/-- Accumulation of hourly bucket counts into the hour-of-day histogram. -/
def hourlyDistribution (bh : List HourBucket) : List (Int × Nat) :=
  bh.foldl hdStep []

/-- The `sorted_hours` list: the hour histogram stably sorted by
descending accumulated count. -/
def sortedByCount (bh : List HourBucket) : List (Int × Nat) :=
  (hourlyDistribution bh).mergeSort (fun a b => decide (b.2 ≤ a.2))

/-- The top-5 selection `[h for h, c in sorted_hours[:5]]` after the stable
descending sort by accumulated count. -/
def peakTop5 (bh : List HourBucket) : List Int :=
  ((sortedByCount bh).take 5).map (·.1)

/-- The `peak_hours` output field: the top-5 hours sorted ascending. -/
def peakHoursOf (bh : List HourBucket) : List Int :=
  (peakTop5 bh).mergeSort (fun a b => decide (a ≤ b))

/-- Python `max(hourly_buckets, key=lambda x: x.get('doc_count', 0))`:
first bucket of maximal count. -/
def maxByFirst : List HourBucket → Option HourBucket
  | [] => none
  | x :: xs => some (xs.foldl (fun best b => if b.doc_count > best.doc_count then b else best) x)

/-- The per-bucket body of the `_parse_traffic_stats` loop, mapping one
entity bucket to its statistics record. Dates are rational timestamps in
seconds, so `(end_date - start_date).total_seconds() / 3600` is
`(end_s - start_s) / 3600`. -/
def recordOfBucket (start_s end_s : ℚ) (b : ApiBucket) : TrafficRecord :=
  let total_requests := b.doc_count
  let hours_diff := max ((end_s - start_s) / 3600) 1
  let avg := (total_requests : ℚ) / hours_diff
  let maxH := (b.by_hour.map (·.doc_count)).foldl max 0
  let er : ℚ := if total_requests > 0 then (b.error_count : ℚ) / (total_requests : ℚ) * 100 else 0
  { api_name := b.api_name_buckets.headD "Unknown"
    total_requests := total_requests
    avg_requests_per_hour := round2 avg
    max_requests_per_hour := maxH
    max_requests_per_minute := if maxH > 0 then pyTrunc ((maxH : ℚ) / 60 * (15/10)) else 0
    peak_hour := (maxByFirst b.by_hour).bind (·.key_as_string)
    peak_hours := peakHoursOf b.by_hour
    unique_ips := pyTrunc b.unique_ips_value
    unique_users := pyTrunc b.unique_users_value
    top_ips := b.top_ips.take 5
    top_users := b.top_users.take 5
    avg_response_time_ms := if b.avg_response_time = 0 then 0 else round2 b.avg_response_time
    status_codes := b.status_codes
    error_count := b.error_count
    error_rate := round2 er
    success_rate := round2 (100 - er) }

/-- Embedding of `_parse_traffic_stats`: one record per entity bucket,
keyed by the bucket key, in bucket order. -/
def parseTrafficStats (es : EsResult) (start_s end_s : ℚ) : List (String × TrafficRecord) :=
  es.api_buckets.map (fun b => (b.key, recordOfBucket start_s end_s b))

/-! ### Data model of the sensitive-field scanner -/

/-- One sampled log record with its header blob (`fcrh`) and body blob
(`fcrb`), both already stringified. -/
structure Hit where
  fcrh : Chars := []
  fcrb : Chars := []
deriving Repr, DecidableEq

/-- Per-keyword tally during the scan. -/
structure Counts where
  count : Nat := 0
  in_headers : Nat := 0
  in_body : Nat := 0
deriving Repr, DecidableEq

/-- Per-keyword entry of the scan result mapping. -/
structure KwEntry where
  count : Nat
  percentage : ℚ
  in_headers : Nat
  in_body : Nat
  exists_ : Bool
deriving Repr, DecidableEq

/-- Successful scan result of `check_sensitive_fields`. -/
structure ScanOk where
  total_logs_checked : Nat
  sensitive_keywords : List (Chars × KwEntry)
  has_sensitive_data : Bool
deriving Repr, DecidableEq

/-- The zero-initialized `keyword_counts` dictionary comprehension: one
entry per keyword, first occurrence wins for duplicates. -/
def initCounts (kws : List Chars) : List (Chars × Counts) :=
  kws.foldl (fun acc kw =>
    if acc.any (fun p => p.1 == kw) then acc else acc ++ [(kw, ⟨0, 0, 0⟩)]) []

/-- Processing of one sampled record: lower-case both blobs once, then for
each keyword occurrence in the keyword list bump the tallies when the
keyword is contained in either blob. -/
def hitStep (kws : List Chars) (m : List (Chars × Counts)) (hit : Hit) :
    List (Chars × Counts) :=
  let fcrh := lowerChars hit.fcrh
  let fcrb := lowerChars hit.fcrb
  kws.foldl (fun m kw =>
    let foundH := isSubChars kw fcrh
    let foundB := isSubChars kw fcrb
    if foundH || foundB then
      m.map (fun p =>
        if p.1 == kw then
          (p.1, { count := p.2.count + 1,
                  in_headers := p.2.in_headers + (if foundH then 1 else 0),
                  in_body := p.2.in_body + (if foundB then 1 else 0) })
        else p)
    else m) m

/-- The full tally loop over all sampled records. -/
def countKeywords (kws : List Chars) (hits : List Hit) : List (Chars × Counts) :=
  hits.foldl (hitStep kws) (initCounts kws)

/-- The success path of `check_sensitive_fields` after the fetch: tallies,
then the percentage mapping restricted to keywords with positive count. -/
def scanHits (kws : List Chars) (hits : List Hit) : ScanOk :=
  let total_logs := hits.length
  let kp := ((countKeywords kws hits).filter (fun p => p.2.count > 0)).map (fun p =>
    (p.1, { count := p.2.count
            percentage := round2 (if total_logs > 0 then (p.2.count : ℚ) / (total_logs : ℚ) * 100 else 0)
            in_headers := p.2.in_headers
            in_body := p.2.in_body
            exists_ := true : KwEntry }))
  { total_logs_checked := total_logs
    sensitive_keywords := kp
    has_sensitive_data := kp.length > 0 }

/-- Result record of `check_sensitive_fields` with `Option`-valued fields
recording which dictionary keys the returned record actually carries. -/
structure SensResponse where
  error : Option String
  total_logs : Option Nat
  sensitive_keywords_found : Option (List (Chars × KwEntry))
  total_logs_checked : Option Nat
  sensitive_keywords : Option (List (Chars × KwEntry))
  has_sensitive_data : Option Bool
deriving Repr, DecidableEq

/-- Outcome of the underlying fetch of recent log records: a successful
response with hits, a non-200 response, or a raised exception. -/
inductive FetchOutcome where
  | ok (hits : List Hit)
  | httpFail (status : Nat)
  | raised (msg : String)
deriving Repr, DecidableEq

/-- Embedding of `check_sensitive_fields` over the fetch outcome: the
non-200 branch returns the `total_logs` / `sensitive_keywords_found`
record, the exception branch the `total_logs_checked` /
`sensitive_keywords` / `has_sensitive_data` record. -/
def checkSensitiveFields (kws : List Chars) : FetchOutcome → SensResponse
  | .ok hits =>
    let r := scanHits kws hits
    { error := none, total_logs := none, sensitive_keywords_found := none
      total_logs_checked := some r.total_logs_checked
      sensitive_keywords := some r.sensitive_keywords
      has_sensitive_data := some r.has_sensitive_data }
  | .httpFail status =>
    { error := some ("ES query failed: " ++ toString status)
      total_logs := some 0, sensitive_keywords_found := some []
      total_logs_checked := none, sensitive_keywords := none, has_sensitive_data := none }
  | .raised msg =>
    { error := some msg, total_logs := none, sensitive_keywords_found := none
      total_logs_checked := some 0, sensitive_keywords := some []
      has_sensitive_data := some false }

/-! ### Claim-side predicates and concrete inputs used by the theorems -/

/-- Presence of any enabled authentication-class policy. -/
def hasEnabledAuthPolicy (cfg : ApiConfig) : Bool :=
  (allPolicies cfg).any (fun p => authPolicyTypes.contains p.type' && p.enabled.getD true)

/-- Case-insensitive containment of a keyword in the header blob of a
sampled record, as the spec phrases it. -/
def matchesHeader (kw : Chars) (h : Hit) : Bool :=
  isSubChars (lowerChars kw) (lowerChars h.fcrh)

/-- Case-insensitive containment of a keyword in the body blob of a
sampled record. -/
def matchesBody (kw : Chars) (h : Hit) : Bool :=
  isSubChars (lowerChars kw) (lowerChars h.fcrb)

/-- Case-insensitive containment of a keyword in either blob of a record. -/
def matchesHit (kw : Chars) (h : Hit) : Bool :=
  matchesHeader kw h || matchesBody kw h

/-- Containment test as the code performs it: the keyword as given against
the lowercased header blob. -/
def foundHeader (kw : Chars) (h : Hit) : Bool := isSubChars kw (lowerChars h.fcrh)

/-- Containment test as the code performs it on the body blob. -/
def foundBody (kw : Chars) (h : Hit) : Bool := isSubChars kw (lowerChars h.fcrb)

/-- Decidable form of the well-formed-hour-token condition on one hourly
bucket: if an hour parses from its timestamp, it lies in 0..23. -/
def hourTokenOk (b : HourBucket) : Bool :=
  match extractHour (b.key_as_string.getD []) with
  | some h => decide (0 ≤ h) && decide (h ≤ 23)
  | none => true

/-- Empty configuration snapshot (no policies, no deployments). -/
def emptyCfg : ApiConfig := {}

/-- Traffic statistics with every key absent (all defaults). -/
def defaultStats : TrafficIn := {}

/-- Configuration whose only policy is an enabled Digest-authentication
policy. -/
def digestOnlyCfg : ApiConfig :=
  { policies := { request := [{ type' := "PolicyDigestAuthentication", enabled := some true }] } }

/-- Configuration whose only policy is an OAuth2-authentication policy with
no `enabled` key (defaulting to enabled). -/
def oauthCfg : ApiConfig :=
  { policies := { request := [{ type' := "PolicyOauth2Authentication", enabled := none }] } }

/-- Weight mapping carrying only an authentication weight of 0.89996. -/
def cexWeights : Weights := [("authentication_strength", 89996/100000)]

/-- Weight mapping carrying only a negative authentication weight. -/
def negWeights : Weights := [("authentication_strength", -1)]

/-- Stats with exactly 100 total requests and one business-hours peak hour. -/
def stats100 : TrafficIn := { total_requests := 100, peak_hours := [9] }

/-- Entity bucket with ten documents but no hourly sub-buckets. -/
def c5bucket : ApiBucket := { key := "api1", doc_count := 10 }

/-- Search result holding only `c5bucket`. -/
def c5es : EsResult := { api_buckets := [c5bucket] }

/-- Witness bucket for the amended max-vs-average invariant: ten documents
spread over two hourly sub-buckets in a two-hour range. -/
def c5wbucket : ApiBucket :=
  { key := "w", doc_count := 10,
    by_hour := [{ key_as_string := some "2025-01-01T00:00:00".data, doc_count := 4 },
                { key_as_string := some "2025-01-01T01:00:00".data, doc_count := 6 }] }

/-- Zero-document bucket that nevertheless carries a nonempty hourly
sub-bucket list. -/
def c6bucket : ApiBucket :=
  { key := "z", doc_count := 0,
    by_hour := [{ key_as_string := some "2025-01-01T05:00:00".data, doc_count := 7 }] }

/-- Fully zeroed bucket used as witness for the zero-document claim. -/
def c6wbucket : ApiBucket := { key := "zz", doc_count := 0 }

/-- Search result holding only the zeroed witness bucket. -/
def c6wes : EsResult := { api_buckets := [c6wbucket] }

/-- Sampled record whose body contains the text `tc`. -/
def tcHit : Hit := { fcrb := "has tc here".data }

/-- Sampled record whose header and body both contain `TC` upper-case. -/
def tcBothHit : Hit := { fcrh := "x-id: TC4".data, fcrb := "TC data".data }

/-- Entity bucket observed over a reversed date range. -/
def c9bucket : ApiBucket := { key := "api9", doc_count := 10 }

/-- Search result holding only `c9bucket`. -/
def c9es : EsResult := { api_buckets := [c9bucket] }

/-- Hourly sub-bucket whose timestamp parses to the out-of-range hour 99. -/
def c10bucket : ApiBucket :=
  { key := "x", doc_count := 5,
    by_hour := [{ key_as_string := some "2025-01-01T99:00:00".data, doc_count := 5 }] }

/-- Well-formed two-bucket hourly histogram used as the peak-hours witness. -/
def c10wbh : List HourBucket :=
  [{ key_as_string := some "2025-01-01T05:00:00".data, doc_count := 3 },
   { key_as_string := some "2025-01-01T09:00:00".data, doc_count := 8 }]

/-! ### Helper lemmas -/

theorem round2_mono {x y : ℚ} (h : x ≤ y) : round2 x ≤ round2 y := by
  unfold round2
  have hf : round (x * 100) ≤ round (y * 100) := by
    rw [round_eq, round_eq]
    exact Int.floor_le_floor (by linarith)
  have : ((round (x * 100) : ℤ) : ℚ) ≤ ((round (y * 100) : ℤ) : ℚ) := by exact_mod_cast hf
  linarith

theorem round2_natCast (n : ℕ) : round2 (n : ℚ) = (n : ℚ) := by
  unfold round2
  have : (n : ℚ) * 100 = ((n * 100 : ℕ) : ℚ) := by push_cast; ring
  rw [this, round_natCast]
  push_cast
  ring

theorem calcTotal_shift (f : String × ℚ → ℚ) (l : List (String × ℚ)) (c : ℚ) :
    l.foldl (fun acc p => acc + f p) c = c + l.foldl (fun acc p => acc + f p) 0 := by
  induction l generalizing c with
  | nil => simp
  | cons p t ih =>
    simp only [List.foldl_cons]
    rw [ih (c + f p), ih (0 + f p)]
    ring

theorem calcTotal_append (l₁ l₂ : List (String × ℚ)) (w : Weights) :
    calcTotal (l₁ ++ l₂) w = calcTotal l₁ w + calcTotal l₂ w := by
  unfold calcTotal
  rw [List.foldl_append, calcTotal_shift (fun p => p.2 * wgetW w p.1)]

theorem calcTotal_cons (p : String × ℚ) (l : List (String × ℚ)) (w : Weights) :
    calcTotal (p :: l) w = p.2 * wgetW w p.1 + calcTotal l w := by
  unfold calcTotal
  simp only [List.foldl_cons, zero_add]
  rw [calcTotal_shift (fun q => q.2 * wgetW w q.1)]

/-! ### Claim C8: fetch-failure result shape -/

/-- C8 (code_bug evaluation): on a non-200 response (here status 500) the
scan returns a record keyed `total_logs` / `sensitive_keywords_found` and
carrying no `total_logs_checked`, `sensitive_keywords` or
`has_sensitive_data` keys, while the exception branch returns the
well-formed zero record the claim describes; the claim's shape therefore
holds for only one of the two failure modes. -/
theorem c8_fetch_failure_shape :
    (checkSensitiveFields ["tc".data] (.httpFail 500)).error = some "ES query failed: 500" ∧
    (checkSensitiveFields ["tc".data] (.httpFail 500)).total_logs_checked = none ∧
    (checkSensitiveFields ["tc".data] (.httpFail 500)).sensitive_keywords = none ∧
    (checkSensitiveFields ["tc".data] (.httpFail 500)).has_sensitive_data = none ∧
    (checkSensitiveFields ["tc".data] (.httpFail 500)).total_logs = some 0 ∧
    (checkSensitiveFields ["tc".data] (.httpFail 500)).sensitive_keywords_found = some [] ∧
    (checkSensitiveFields ["tc".data] (.raised "boom")).error = some "boom" ∧
    (checkSensitiveFields ["tc".data] (.raised "boom")).total_logs_checked = some 0 ∧
    (checkSensitiveFields ["tc".data] (.raised "boom")).sensitive_keywords = some [] ∧
    (checkSensitiveFields ["tc".data] (.raised "boom")).has_sensitive_data = some false := by
  refine ⟨rfl, rfl, rfl, rfl, rfl, rfl, rfl, rfl, rfl, rfl⟩

/-! ### Claim C2: security level versus total score -/

/-- C2 (amended): the security level of the report is the level of the
pre-rounding weighted total under the exact boundaries 90/75/60/40, while
the reported `total_score` is that total rounded to two decimals; the
boundary values behave exactly as specified on the pre-rounding score. -/
theorem c2_security_level (w : Weights) (cfg : ApiConfig) (stats : TrafficIn) :
    (calculateApiScore w cfg stats).security_level =
      getSecurityLevel (calcTotal (componentScores cfg stats) w) ∧
    (calculateApiScore w cfg stats).total_score =
      round2 (calcTotal (componentScores cfg stats) w) ∧
    getSecurityLevel 90 = "Excellent" ∧
    getSecurityLevel (89999/1000) = "Good" ∧
    getSecurityLevel 75 = "Good" ∧
    getSecurityLevel 60 = "Fair" ∧
    getSecurityLevel (59999/1000) = "Poor" ∧
    getSecurityLevel 40 = "Poor" ∧
    getSecurityLevel (39999/1000) = "Critical" := by
  refine ⟨rfl, rfl, ?_, ?_, ?_, ?_, ?_, ?_, ?_⟩ <;> norm_num [getSecurityLevel]

/-- C2 (counterexample): with an authentication weight of 0.89996 and an
enabled OAuth2 policy the pre-rounding total is 89.996, so the report
carries `total_score = 90.0` together with `security_level = "Good"` —
a reported score of exactly 90.0 does not always carry level Excellent,
and the level is not a function of the reported (rounded) score. -/
theorem c2_counterexample :
    (calculateApiScore cexWeights oauthCfg defaultStats).total_score = 90 ∧
    (calculateApiScore cexWeights oauthCfg defaultStats).security_level = "Good" := by
  constructor
  · simp +decide [calculateApiScore, componentScores, scoreIpWhitelist, scoreThrottling,
      scoreQuota, scoreAuthentication, scoreAllowedHours, scoreTrafficAnomaly,
      scoreErrorRate, scoreSslTls, scoreLogging, calcTotal, wgetW, List.lookup,
      hasEnabledPolicy, allPolicies, oauthCfg, defaultStats, cexWeights, authPolicyTypes]
    norm_num [round2, round_eq]
  · simp +decide [calculateApiScore, componentScores, scoreIpWhitelist, scoreThrottling,
      scoreQuota, scoreAuthentication, scoreAllowedHours, scoreTrafficAnomaly,
      scoreErrorRate, scoreSslTls, scoreLogging, calcTotal, wgetW, List.lookup,
      hasEnabledPolicy, allPolicies, oauthCfg, defaultStats, cexWeights, authPolicyTypes]
    norm_num [getSecurityLevel, round2, round_eq]

/-! ### Claim C4: allowed-hours component -/

/-- C4 (amended): with no enabled allowed-hours policy the component is 100
unless total requests exceed 100 (strictly more than 100, not "at least
100") and peak hours are present, in which case it is 70 with one low
recommendation when every peak hour lies in 08:00-18:59, else 75 with one
low recommendation when there are at most 8 peak hours, else 100; with an
enabled allowed-hours policy it is 100 with no recommendation. -/
theorem c4_allowed_hours (cfg : ApiConfig) (stats : TrafficIn) :
    (scoreAllowedHours cfg stats).1 =
      (if hasEnabledPolicy cfg "PolicyAllowedHours" = true then 100
       else if 100 < stats.total_requests ∧ stats.peak_hours ≠ [] then
         if ∀ h ∈ stats.peak_hours, 8 ≤ h ∧ h ≤ 18 then 70
         else if stats.peak_hours.length ≤ 8 then 75
         else 100
       else 100) ∧
    (scoreAllowedHours cfg stats).2.map Recommendation.severity =
      (if hasEnabledPolicy cfg "PolicyAllowedHours" = true then []
       else if 100 < stats.total_requests ∧ stats.peak_hours ≠ [] then
         if ∀ h ∈ stats.peak_hours, 8 ≤ h ∧ h ≤ 18 then ["low"]
         else if stats.peak_hours.length ≤ 8 then ["low"]
         else []
       else []) := by
  have hiff : (stats.peak_hours.all (fun h => decide (8 ≤ h) && decide (h ≤ 18)) = true) ↔
      (∀ h ∈ stats.peak_hours, 8 ≤ h ∧ h ≤ 18) := by
    simp [List.all_eq_true]
  by_cases hpol : hasEnabledPolicy cfg "PolicyAllowedHours" = true
  · simp [scoreAllowedHours, hpol]
  · by_cases htot : 100 < stats.total_requests
    · by_cases hne : stats.peak_hours = []
      · simp [scoreAllowedHours, hpol, htot, hne]
      · have hcond : (100 < stats.total_requests ∧ stats.peak_hours ≠ []) = True :=
          eq_true ⟨htot, hne⟩
        by_cases hall : ∀ h ∈ stats.peak_hours, 8 ≤ h ∧ h ≤ 18
        · have hb := hiff.mpr hall
          simp [scoreAllowedHours, hpol, htot, hne, hb, hcond, eq_true hall]
        · have hb : stats.peak_hours.all (fun h => decide (8 ≤ h) && decide (h ≤ 18)) = false :=
            eq_false_of_ne_true (fun hcontra => hall (hiff.mp hcontra))
          have hallF : (∀ h ∈ stats.peak_hours, 8 ≤ h ∧ h ≤ 18) = False := eq_false hall
          by_cases hlen : stats.peak_hours.length ≤ 8 <;>
            simp [scoreAllowedHours, hpol, htot, hne, hb, hcond, hallF, hlen]
    · have hcondF : (100 < stats.total_requests ∧ stats.peak_hours ≠ []) = False :=
        eq_false (fun hc => htot hc.1)
      simp [scoreAllowedHours, hpol, htot, hcondF]

/-- C4 (counterexample): at exactly 100 total requests with a single
business-hours peak hour and no allowed-hours policy, the component is 100
with no recommendation — the code's guard is `total_requests > 100`, so
"at least 100" in the claim is wrong at the boundary value 100. -/
theorem c4_counterexample :
    hasEnabledPolicy emptyCfg "PolicyAllowedHours" = false ∧
    stats100.total_requests = 100 ∧
    stats100.peak_hours = [9] ∧
    (scoreAllowedHours emptyCfg stats100).1 = 100 ∧
    (scoreAllowedHours emptyCfg stats100).2 = [] := by
  refine ⟨rfl, rfl, rfl, ?_, ?_⟩ <;>
    simp [scoreAllowedHours, hasEnabledPolicy, allPolicies, emptyCfg, stats100]

/-! ### Claim C1: authentication-strength component -/

/-- C1 (counterexample): a configuration whose only policy is an enabled
Digest-authentication policy has an enabled authentication-class policy,
yet the component score is 0 (with no recommendation at all) — the claim
that the score is nonzero whenever an enabled authentication-class policy
(including Digest) exists is false. -/
theorem c1_counterexample :
    hasEnabledAuthPolicy digestOnlyCfg = true ∧
    (scoreAuthentication digestOnlyCfg).1 = 0 ∧
    (scoreAuthentication digestOnlyCfg).2 = [] := by
  refine ⟨rfl, ?_, ?_⟩ <;>
    simp [scoreAuthentication, allPolicies, digestOnlyCfg, authPolicyTypes]

theorem contains_filteredAuthTypes (cfg : ApiConfig) (t : String)
    (ht : t ∈ authPolicyTypes) :
    ((((allPolicies cfg).filter (fun p =>
          authPolicyTypes.contains p.type' && p.enabled.getD true)).map (·.type')).contains t)
      = hasEnabledPolicy cfg t := by
  rw [Bool.eq_iff_iff]
  simp only [hasEnabledPolicy, List.contains_iff_exists_mem_beq, List.any_eq_true,
    List.mem_map, List.mem_filter, Bool.and_eq_true, beq_iff_eq]
  constructor
  · rintro ⟨t', ⟨p, ⟨hp, hc, he⟩, hpt⟩, htt⟩
    exact ⟨p, hp, by rw [hpt, ← htt], he⟩
  · rintro ⟨p, hp, hpt, he⟩
    refine ⟨t, ⟨p, ⟨hp, ?_, he⟩, hpt⟩, rfl⟩
    simpa using (hpt ▸ ht : p.type' ∈ authPolicyTypes)

theorem filteredAuth_isEmpty (cfg : ApiConfig) :
    (((allPolicies cfg).filter (fun p =>
        authPolicyTypes.contains p.type' && p.enabled.getD true)).isEmpty = true)
      ↔ hasEnabledAuthPolicy cfg = false := by
  rw [List.isEmpty_iff, List.filter_eq_nil_iff, ← Bool.not_eq_true, hasEnabledAuthPolicy,
    List.any_eq_true]
  exact ⟨fun h hex => by obtain ⟨p, hp, hpe⟩ := hex; exact h p hp hpe,
         fun h p hp hpe => h ⟨p, hp, hpe⟩⟩

/-- C1 (amended): the authentication component is 0 with one critical
recommendation iff no enabled authentication-class policy exists; else 100
when an enabled OAuth2-, JWT- or mTLS-class policy is present; else 75 when
an enabled generic API-auth policy is present; else 50 with one medium
recommendation when an enabled Basic-auth policy is present; and 0 with no
recommendation when the only enabled authentication-class policies are
Digest-class (contrary to the claim's final clause, Digest does not make
the score nonzero). -/
theorem c1_authentication (cfg : ApiConfig) :
    (scoreAuthentication cfg).1 =
      (if !hasEnabledAuthPolicy cfg then 0
       else if hasEnabledPolicy cfg "PolicyOauth2Authentication" ||
           hasEnabledPolicy cfg "PolicyJwtAuthentication" ||
           hasEnabledPolicy cfg "PolicyMTLSAuthentication" then 100
       else if hasEnabledPolicy cfg "PolicyApiAuthentication" then 75
       else if hasEnabledPolicy cfg "PolicyBasicAuthentication" then 50
       else 0) ∧
    (scoreAuthentication cfg).2.map Recommendation.severity =
      (if !hasEnabledAuthPolicy cfg then ["critical"]
       else if hasEnabledPolicy cfg "PolicyOauth2Authentication" ||
           hasEnabledPolicy cfg "PolicyJwtAuthentication" ||
           hasEnabledPolicy cfg "PolicyMTLSAuthentication" then []
       else if hasEnabledPolicy cfg "PolicyApiAuthentication" then []
       else if hasEnabledPolicy cfg "PolicyBasicAuthentication" then ["medium"]
       else []) := by
  have hB : (((allPolicies cfg).filter (fun p =>
      authPolicyTypes.contains p.type' && p.enabled.getD true)).isEmpty)
        = !hasEnabledAuthPolicy cfg := by
    rw [Bool.eq_iff_iff, Bool.not_eq_true', filteredAuth_isEmpty]
  have hoauth := contains_filteredAuthTypes cfg "PolicyOauth2Authentication"
    (by simp [authPolicyTypes])
  have hjwt := contains_filteredAuthTypes cfg "PolicyJwtAuthentication"
    (by simp [authPolicyTypes])
  have hmtls := contains_filteredAuthTypes cfg "PolicyMTLSAuthentication"
    (by simp [authPolicyTypes])
  have hapi := contains_filteredAuthTypes cfg "PolicyApiAuthentication"
    (by simp [authPolicyTypes])
  have hbasic := contains_filteredAuthTypes cfg "PolicyBasicAuthentication"
    (by simp [authPolicyTypes])
  simp only [scoreAuthentication, hB, hoauth, hjwt, hmtls, hapi, hbasic]
  cases hA : hasEnabledAuthPolicy cfg
  · simp
  · cases hO : hasEnabledPolicy cfg "PolicyOauth2Authentication" <;>
    cases hJ : hasEnabledPolicy cfg "PolicyJwtAuthentication" <;>
    cases hM : hasEnabledPolicy cfg "PolicyMTLSAuthentication" <;>
    cases hAp : hasEnabledPolicy cfg "PolicyApiAuthentication" <;>
    cases hBa : hasEnabledPolicy cfg "PolicyBasicAuthentication" <;>
    simp

/-! ### Claim C3: weighted total and monotonicity -/

theorem wgetW_eq_zero_of_absent (w : Weights) (n : String)
    (hn : ∀ p ∈ w, p.1 ≠ n) : wgetW w n = 0 := by
  unfold wgetW
  induction w with
  | nil => rfl
  | cons p t ih =>
    obtain ⟨k, v⟩ := p
    have hk : (n == k) = false :=
      beq_eq_false_iff_ne.mpr (fun hEq => hn (k, v) (List.mem_cons_self _ _) hEq.symm)
    simp only [List.lookup, hk]
    exact ih (fun q hq => hn q (List.mem_cons_of_mem _ hq))

/-- C3 (amended): the reported total is the weighted sum of the nine
component scores (a component name without a supplied weight contributing
0), rounded to two decimals; and holding the weights and the other entries
of the scores mapping fixed, the total is monotone non-decreasing in any
single component score **provided that component's weight is
non-negative** — with a negative supplied weight the total decreases. -/
theorem c3_weighted_total (w : Weights) (cfg : ApiConfig) (stats : TrafficIn)
    (pre post : List (String × ℚ)) (name : String) (a b : ℚ)
    (hab : a ≤ b) (hw : 0 ≤ wgetW w name) :
    (calculateApiScore w cfg stats).total_score =
      round2 ((scoreIpWhitelist cfg stats).1 * wgetW w "ip_whitelist_coverage" +
        (scoreThrottling cfg stats).1 * wgetW w "throttling_configured" +
        (scoreQuota cfg stats).1 * wgetW w "quota_configured" +
        (scoreAuthentication cfg).1 * wgetW w "authentication_strength" +
        (scoreAllowedHours cfg stats).1 * wgetW w "allowed_hours" +
        (scoreTrafficAnomaly stats).1 * wgetW w "traffic_anomaly" +
        (scoreErrorRate stats).1 * wgetW w "error_rate" +
        (scoreSslTls cfg).1 * wgetW w "ssl_tls_status" +
        (scoreLogging cfg stats).1 * wgetW w "logging_status") ∧
    (∀ n : String, (∀ p ∈ w, p.1 ≠ n) → wgetW w n = 0) ∧
    round2 (calcTotal (pre ++ (name, a) :: post) w) ≤
      round2 (calcTotal (pre ++ (name, b) :: post) w) := by
  refine ⟨?_, fun n hn => wgetW_eq_zero_of_absent w n hn, ?_⟩
  · show round2 (calcTotal (componentScores cfg stats) w) = _
    unfold componentScores
    rw [calcTotal_cons, calcTotal_cons, calcTotal_cons, calcTotal_cons, calcTotal_cons,
      calcTotal_cons, calcTotal_cons, calcTotal_cons, calcTotal_cons]
    have h0 : calcTotal [] w = 0 := rfl
    rw [h0]
    congr 1
    ring
  · rw [calcTotal_append, calcTotal_append, calcTotal_cons, calcTotal_cons]
    have hm : a * wgetW w name ≤ b * wgetW w name :=
      mul_le_mul_of_nonneg_right hab hw
    exact round2_mono (by linarith)

/-- C3 (witness): the amended statement applied at a concrete input — a
0.2 authentication weight, the empty configuration and default stats, and
the authentication entry raised from 0 to 50. -/
theorem c3_witness :
    ((0:ℚ) ≤ 50) ∧
    (0 ≤ wgetW [("authentication_strength", (1:ℚ)/5)] "authentication_strength") ∧
    ((calculateApiScore [("authentication_strength", (1:ℚ)/5)] emptyCfg defaultStats).total_score =
      round2 ((scoreIpWhitelist emptyCfg defaultStats).1 *
          wgetW [("authentication_strength", (1:ℚ)/5)] "ip_whitelist_coverage" +
        (scoreThrottling emptyCfg defaultStats).1 *
          wgetW [("authentication_strength", (1:ℚ)/5)] "throttling_configured" +
        (scoreQuota emptyCfg defaultStats).1 *
          wgetW [("authentication_strength", (1:ℚ)/5)] "quota_configured" +
        (scoreAuthentication emptyCfg).1 *
          wgetW [("authentication_strength", (1:ℚ)/5)] "authentication_strength" +
        (scoreAllowedHours emptyCfg defaultStats).1 *
          wgetW [("authentication_strength", (1:ℚ)/5)] "allowed_hours" +
        (scoreTrafficAnomaly defaultStats).1 *
          wgetW [("authentication_strength", (1:ℚ)/5)] "traffic_anomaly" +
        (scoreErrorRate defaultStats).1 *
          wgetW [("authentication_strength", (1:ℚ)/5)] "error_rate" +
        (scoreSslTls emptyCfg).1 *
          wgetW [("authentication_strength", (1:ℚ)/5)] "ssl_tls_status" +
        (scoreLogging emptyCfg defaultStats).1 *
          wgetW [("authentication_strength", (1:ℚ)/5)] "logging_status") ∧
      (∀ n : String, (∀ p ∈ [("authentication_strength", (1:ℚ)/5)], p.1 ≠ n) →
        wgetW [("authentication_strength", (1:ℚ)/5)] n = 0) ∧
      round2 (calcTotal ([] ++ ("authentication_strength", (0:ℚ)) :: [])
          [("authentication_strength", (1:ℚ)/5)]) ≤
        round2 (calcTotal ([] ++ ("authentication_strength", (50:ℚ)) :: [])
          [("authentication_strength", (1:ℚ)/5)])) :=
  ⟨by norm_num,
   by norm_num [wgetW, List.lookup],
   c3_weighted_total [("authentication_strength", (1:ℚ)/5)] emptyCfg defaultStats
     [] [] "authentication_strength" 0 50 (by norm_num)
     (by norm_num [wgetW, List.lookup])⟩

/-- C3 (counterexample): with the externally supplied weight mapping
assigning the authentication component the weight −1, raising that
component's score from 0 to 100 (all other component scores unchanged)
strictly lowers the total from 0 to −100 — the total is not monotone
non-decreasing in a component score for arbitrary supplied weights. -/
theorem c3_counterexample :
    componentScores oauthCfg defaultStats =
      [("ip_whitelist_coverage", 0), ("throttling_configured", 0),
       ("quota_configured", 50), ("authentication_strength", 100),
       ("allowed_hours", 100), ("traffic_anomaly", 100),
       ("error_rate", 100), ("ssl_tls_status", 100), ("logging_status", 100)] ∧
    componentScores emptyCfg defaultStats =
      [("ip_whitelist_coverage", 0), ("throttling_configured", 0),
       ("quota_configured", 50), ("authentication_strength", 0),
       ("allowed_hours", 100), ("traffic_anomaly", 100),
       ("error_rate", 100), ("ssl_tls_status", 100), ("logging_status", 100)] ∧
    wgetW negWeights "authentication_strength" = -1 ∧
    (calculateApiScore negWeights oauthCfg defaultStats).total_score = -100 ∧
    (calculateApiScore negWeights emptyCfg defaultStats).total_score = 0 := by
  refine ⟨?_, ?_, ?_, ?_, ?_⟩
  · simp +decide [componentScores, scoreIpWhitelist, scoreThrottling, scoreQuota,
      scoreAuthentication, scoreAllowedHours, scoreTrafficAnomaly, scoreErrorRate,
      scoreSslTls, scoreLogging, hasEnabledPolicy, allPolicies, oauthCfg,
      defaultStats, authPolicyTypes]
    norm_num [round2, round_eq]
  · simp +decide [componentScores, scoreIpWhitelist, scoreThrottling, scoreQuota,
      scoreAuthentication, scoreAllowedHours, scoreTrafficAnomaly, scoreErrorRate,
      scoreSslTls, scoreLogging, hasEnabledPolicy, allPolicies, emptyCfg,
      defaultStats, authPolicyTypes]
    norm_num [round2, round_eq]
  · norm_num [wgetW, negWeights, List.lookup]
  · simp +decide [calculateApiScore, componentScores, scoreIpWhitelist, scoreThrottling,
      scoreQuota, scoreAuthentication, scoreAllowedHours, scoreTrafficAnomaly,
      scoreErrorRate, scoreSslTls, scoreLogging, calcTotal, wgetW, List.lookup,
      hasEnabledPolicy, allPolicies, oauthCfg, defaultStats, negWeights, authPolicyTypes]
    norm_num [round2, round_eq]
  · simp +decide [calculateApiScore, componentScores, scoreIpWhitelist, scoreThrottling,
      scoreQuota, scoreAuthentication, scoreAllowedHours, scoreTrafficAnomaly,
      scoreErrorRate, scoreSslTls, scoreLogging, calcTotal, wgetW, List.lookup,
      hasEnabledPolicy, allPolicies, emptyCfg, defaultStats, negWeights, authPolicyTypes]
    norm_num [round2, round_eq]

/-! ### Claim C9: reversed date ranges -/

/-- C9 (amended): a reversed date range is not rejected and no error is
propagated: the `max(..., 1)` floor clamps the non-positive duration to
one hour, so the aggregation result for any range whose end does not
exceed its start is exactly the result for the corresponding one-hour
forward range — per-entity statistics are produced from the silently
corrected range. -/
theorem c9_reversed_range (es : EsResult) (start_s end_s : ℚ)
    (h : end_s ≤ start_s) :
    parseTrafficStats es start_s end_s =
      parseTrafficStats es start_s (start_s + 3600) := by
  have hd : max ((end_s - start_s) / 3600) 1 =
      max ((start_s + 3600 - start_s) / 3600) 1 := by
    have h1 : (end_s - start_s) / 3600 ≤ 1 := by
      have : (end_s - start_s) / 3600 ≤ 0 := by
        apply div_nonpos_of_nonpos_of_nonneg <;> linarith
      linarith
    have h2 : (start_s + 3600 - start_s) / 3600 = 1 := by ring_nf
    rw [max_eq_right h1, h2, max_self]
  unfold parseTrafficStats
  apply List.map_congr_left
  intro b _
  simp only [recordOfBucket, hd]

/-- C9 (witness): the amended statement applied to a concrete reversed
range (start 7200 s, end 0 s) over a one-bucket result. -/
theorem c9_witness :
    ((0:ℚ) ≤ 7200) ∧
    parseTrafficStats c9es 7200 0 = parseTrafficStats c9es 7200 (7200 + 3600) :=
  ⟨by norm_num, c9_reversed_range c9es 7200 0 (by norm_num)⟩

/-- C9 (counterexample): for the reversed range (start 7200 s, end 0 s)
the aggregation does not propagate an invalid-input error — it yields a
statistics record for the bucket, computed with the duration clamped to
one hour (average 10 requests per hour for 10 documents). -/
theorem c9_counterexample :
    parseTrafficStats c9es 7200 0 = [("api9", recordOfBucket 7200 0 c9bucket)] ∧
    (recordOfBucket 7200 0 c9bucket).total_requests = 10 ∧
    (recordOfBucket 7200 0 c9bucket).avg_requests_per_hour = 10 := by
  have hm : max (((0:ℚ) - 7200) / 3600) 1 = 1 := max_eq_right (by norm_num)
  refine ⟨rfl, rfl, ?_⟩
  simp only [recordOfBucket, c9bucket, hm]
  norm_num [round2, round_eq]

/-! ### Claim C5: max versus average requests per hour -/

theorem le_foldlMax (l : List Nat) (a : Nat) : a ≤ l.foldl max a := by
  induction l generalizing a with
  | nil => exact le_rfl
  | cons x t ih => exact le_trans (Nat.le_max_left a x) (ih (max a x))

theorem foldlMax_mono (l : List Nat) {a b : Nat} (h : a ≤ b) :
    l.foldl max a ≤ l.foldl max b := by
  induction l generalizing a b with
  | nil => exact h
  | cons x t ih => exact ih (max_le_max h (le_refl x))

theorem sum_le_length_mul_foldlMax (l : List Nat) :
    l.sum ≤ l.length * l.foldl max 0 := by
  induction l with
  | nil => simp
  | cons x t ih =>
    have hfold : (x :: t).foldl max 0 = t.foldl max x := by
      simp [List.foldl_cons, Nat.zero_max]
    have hx : x ≤ t.foldl max x := le_foldlMax t x
    have hsum : t.sum ≤ t.length * t.foldl max x :=
      le_trans ih (Nat.mul_le_mul_left _ (foldlMax_mono t (Nat.zero_le x)))
    calc (x :: t).sum = x + t.sum := by simp
    _ ≤ t.foldl max x + t.length * t.foldl max x := Nat.add_le_add hx hsum
    _ = (t.length + 1) * t.foldl max x := by ring
    _ = (x :: t).length * (x :: t).foldl max 0 := by
        rw [hfold, List.length_cons]

/-- C5 (amended): the invariant `max_requests_per_hour ≥
avg_requests_per_hour` holds for a bucket with positive document count
**provided** the hourly sub-buckets cover the documents (their counts sum
to at least the bucket's count) and there are no more hourly sub-buckets
than the (floored-at-one) hour span of the range; for arbitrary bucket
structures — e.g. a bucket with documents but no hourly sub-buckets — it
fails. -/
theorem c5_max_ge_avg (start_s end_s : ℚ) (b : ApiBucket)
    (hpos : 0 < b.doc_count)
    (hcover : b.doc_count ≤ (b.by_hour.map HourBucket.doc_count).sum)
    (hlen : ((b.by_hour.length : ℚ)) ≤ max ((end_s - start_s) / 3600) 1) :
    (recordOfBucket start_s end_s b).avg_requests_per_hour ≤
      ((recordOfBucket start_s end_s b).max_requests_per_hour : ℚ) := by
  have havg : (recordOfBucket start_s end_s b).avg_requests_per_hour =
      round2 ((b.doc_count : ℚ) / max ((end_s - start_s) / 3600) 1) := rfl
  have hmax : (recordOfBucket start_s end_s b).max_requests_per_hour =
      (b.by_hour.map HourBucket.doc_count).foldl max 0 := rfl
  rw [havg, hmax]
  have hH1 : (1:ℚ) ≤ max ((end_s - start_s) / 3600) 1 := le_max_right _ _
  have hHpos : (0:ℚ) < max ((end_s - start_s) / 3600) 1 := by linarith
  have hsum : ((b.doc_count : ℚ)) ≤
      (((b.by_hour.map HourBucket.doc_count).sum : ℕ) : ℚ) := by exact_mod_cast hcover
  have hlm : (((b.by_hour.map HourBucket.doc_count).sum : ℕ) : ℚ) ≤
      ((b.by_hour.length : ℚ)) * (((b.by_hour.map HourBucket.doc_count).foldl max 0 : ℕ) : ℚ) := by
    have h := sum_le_length_mul_foldlMax (b.by_hour.map HourBucket.doc_count)
    rw [List.length_map] at h
    exact_mod_cast h
  have hHM : ((b.by_hour.length : ℚ)) *
        (((b.by_hour.map HourBucket.doc_count).foldl max 0 : ℕ) : ℚ) ≤
      max ((end_s - start_s) / 3600) 1 *
        (((b.by_hour.map HourBucket.doc_count).foldl max 0 : ℕ) : ℚ) :=
    mul_le_mul_of_nonneg_right hlen (by positivity)
  have hdiv : (b.doc_count : ℚ) / max ((end_s - start_s) / 3600) 1 ≤
      (((b.by_hour.map HourBucket.doc_count).foldl max 0 : ℕ) : ℚ) := by
    rw [div_le_iff hHpos]
    calc (b.doc_count : ℚ) ≤ _ := hsum
    _ ≤ _ := hlm
    _ ≤ _ := hHM
    _ = _ := mul_comm _ _
  calc round2 ((b.doc_count : ℚ) / max ((end_s - start_s) / 3600) 1)
      ≤ round2 (((b.by_hour.map HourBucket.doc_count).foldl max 0 : ℕ) : ℚ) :=
        round2_mono hdiv
    _ = _ := round2_natCast _

/-- C5 (witness): the amended invariant applied to a concrete bucket of
ten documents spread 4/6 over two hourly sub-buckets in a two-hour range:
the average (5) does not exceed the hourly maximum (6). -/
theorem c5_witness :
    (0 < c5wbucket.doc_count) ∧
    (c5wbucket.doc_count ≤ (c5wbucket.by_hour.map HourBucket.doc_count).sum) ∧
    (((c5wbucket.by_hour.length : ℚ)) ≤ max (((7200:ℚ) - 0) / 3600) 1) ∧
    ((recordOfBucket 0 7200 c5wbucket).avg_requests_per_hour ≤
      ((recordOfBucket 0 7200 c5wbucket).max_requests_per_hour : ℚ)) :=
  ⟨by decide, by decide,
   by
    have h2 : (((7200:ℚ) - 0) / 3600) = 2 := by norm_num
    rw [h2, max_eq_left (by norm_num)]
    norm_num [c5wbucket],
   c5_max_ge_avg 0 7200 c5wbucket (by decide) (by decide)
     (by
      have h2 : (((7200:ℚ) - 0) / 3600) = 2 := by norm_num
      rw [h2, max_eq_left (by norm_num)]
      norm_num [c5wbucket])⟩

/-- C5 (counterexample): a bucket with ten documents but an empty hourly
sub-bucket list over a one-hour range yields `max_requests_per_hour = 0`
while `avg_requests_per_hour = 10`, violating the claimed invariant
`max ≥ avg` for records with positive total requests — the invariant does
not hold for all input bucket structures. -/
theorem c5_counterexample :
    parseTrafficStats c5es 0 3600 = [("api1", recordOfBucket 0 3600 c5bucket)] ∧
    (recordOfBucket 0 3600 c5bucket).total_requests = 10 ∧
    (recordOfBucket 0 3600 c5bucket).max_requests_per_hour = 0 ∧
    (recordOfBucket 0 3600 c5bucket).avg_requests_per_hour = 10 ∧
    ¬((recordOfBucket 0 3600 c5bucket).avg_requests_per_hour ≤
        ((recordOfBucket 0 3600 c5bucket).max_requests_per_hour : ℚ)) := by
  have hm : max (((3600:ℚ) - 0) / 3600) 1 = 1 := by
    rw [show (((3600:ℚ) - 0) / 3600) = 1 by norm_num, max_self]
  have havg : (recordOfBucket 0 3600 c5bucket).avg_requests_per_hour = 10 := by
    simp only [recordOfBucket, c5bucket, hm]
    norm_num [round2, round_eq]
  have hmx : (recordOfBucket 0 3600 c5bucket).max_requests_per_hour = 0 := rfl
  refine ⟨rfl, rfl, rfl, havg, ?_⟩
  rw [havg, hmx]
  norm_num

/-! ### Claim C6: zero-document buckets -/

/-- C6 (amended): every bucket — zero-document ones included — yields a
record (the output keys are exactly the bucket keys, nothing is omitted),
and a zero-document bucket always has `total_requests = 0`,
`error_rate = 0`, `success_rate = 100` and `avg_requests_per_hour = 0`,
whatever its sub-buckets hold; the remaining numeric fields are zero and
the peak fields absent/empty **provided** the bucket's sub-aggregations
are themselves empty/zero — not regardless of the hourly sub-bucket
contents, which feed `max_requests_per_hour`, `peak_hour` and
`peak_hours` independently of the document count. -/
theorem c6_zero_doc (es : EsResult) (start_s end_s : ℚ) (b : ApiBucket)
    (h0 : b.doc_count = 0) :
    ((parseTrafficStats es start_s end_s).map Prod.fst =
      es.api_buckets.map ApiBucket.key) ∧
    (recordOfBucket start_s end_s b).total_requests = 0 ∧
    (recordOfBucket start_s end_s b).error_rate = 0 ∧
    (recordOfBucket start_s end_s b).success_rate = 100 ∧
    (recordOfBucket start_s end_s b).avg_requests_per_hour = 0 ∧
    (b.by_hour = [] → b.unique_ips_value = 0 → b.unique_users_value = 0 →
      b.top_ips = [] → b.top_users = [] → b.avg_response_time = 0 →
      b.error_count = 0 → b.status_codes = [] →
      (recordOfBucket start_s end_s b).max_requests_per_hour = 0 ∧
      (recordOfBucket start_s end_s b).max_requests_per_minute = 0 ∧
      (recordOfBucket start_s end_s b).unique_ips = 0 ∧
      (recordOfBucket start_s end_s b).unique_users = 0 ∧
      (recordOfBucket start_s end_s b).top_ips = [] ∧
      (recordOfBucket start_s end_s b).top_users = [] ∧
      (recordOfBucket start_s end_s b).avg_response_time_ms = 0 ∧
      (recordOfBucket start_s end_s b).status_codes = [] ∧
      (recordOfBucket start_s end_s b).error_count = 0 ∧
      (recordOfBucket start_s end_s b).peak_hour = none ∧
      (recordOfBucket start_s end_s b).peak_hours = []) := by
  obtain ⟨key, dc, names, bh, ui, uu, ti, tu, art, sc, ec⟩ := b
  simp only at h0
  subst h0
  refine ⟨?_, rfl, ?_, ?_, ?_, ?_⟩
  · simp [parseTrafficStats, List.map_map, Function.comp]
  · show round2 (if (0:ℕ) > 0 then ((ec : ℕ) : ℚ) / ((0:ℕ) : ℚ) * 100 else 0) = 0
    norm_num [round2, round_eq]
  · show round2 (100 - (if (0:ℕ) > 0 then ((ec : ℕ) : ℚ) / ((0:ℕ) : ℚ) * 100 else 0)) = 100
    norm_num [round2, round_eq]
  · show round2 (((0:ℕ) : ℚ) / max ((end_s - start_s) / 3600) 1) = 0
    norm_num [round2, round_eq]
  · intro hbh hui huu hti htu hart hec hsc
    simp only at hbh hui huu hti htu hart hec hsc
    subst hbh hui huu hti htu hart hec hsc
    refine ⟨rfl, rfl, ?_, ?_, rfl, rfl, ?_, rfl, rfl, rfl, ?_⟩
    · show pyTrunc 0 = 0
      norm_num [pyTrunc]
    · show pyTrunc 0 = 0
      norm_num [pyTrunc]
    · show (if (0:ℚ) = 0 then (0:ℚ) else round2 0) = 0
      norm_num
    · show peakHoursOf [] = []
      simp [peakHoursOf, peakTop5, sortedByCount, hourlyDistribution, List.mergeSort_nil]

/-- C6 (witness): the amended statement applied to a concrete
zero-document bucket, whose empty sub-aggregations also discharge the
provisos of the conditional clause. -/
theorem c6_witness :
    c6wbucket.doc_count = 0 ∧
    (((parseTrafficStats c6wes 0 3600).map Prod.fst =
        c6wes.api_buckets.map ApiBucket.key) ∧
      (recordOfBucket 0 3600 c6wbucket).total_requests = 0 ∧
      (recordOfBucket 0 3600 c6wbucket).error_rate = 0 ∧
      (recordOfBucket 0 3600 c6wbucket).success_rate = 100 ∧
      (recordOfBucket 0 3600 c6wbucket).avg_requests_per_hour = 0 ∧
      (c6wbucket.by_hour = [] → c6wbucket.unique_ips_value = 0 →
        c6wbucket.unique_users_value = 0 → c6wbucket.top_ips = [] →
        c6wbucket.top_users = [] → c6wbucket.avg_response_time = 0 →
        c6wbucket.error_count = 0 → c6wbucket.status_codes = [] →
        (recordOfBucket 0 3600 c6wbucket).max_requests_per_hour = 0 ∧
        (recordOfBucket 0 3600 c6wbucket).max_requests_per_minute = 0 ∧
        (recordOfBucket 0 3600 c6wbucket).unique_ips = 0 ∧
        (recordOfBucket 0 3600 c6wbucket).unique_users = 0 ∧
        (recordOfBucket 0 3600 c6wbucket).top_ips = [] ∧
        (recordOfBucket 0 3600 c6wbucket).top_users = [] ∧
        (recordOfBucket 0 3600 c6wbucket).avg_response_time_ms = 0 ∧
        (recordOfBucket 0 3600 c6wbucket).status_codes = [] ∧
        (recordOfBucket 0 3600 c6wbucket).error_count = 0 ∧
        (recordOfBucket 0 3600 c6wbucket).peak_hour = none ∧
        (recordOfBucket 0 3600 c6wbucket).peak_hours = [])) :=
  ⟨rfl, c6_zero_doc c6wes 0 3600 c6wbucket rfl⟩

/-- C6 (counterexample): a zero-document bucket whose hourly sub-bucket
list is nonempty still yields `max_requests_per_hour = 7`, a present
`peak_hour` and `peak_hours = [5]` — the all-zero/empty conclusion does
not hold regardless of the hourly-histogram sub-bucket contents. -/
theorem c6_counterexample :
    c6bucket.doc_count = 0 ∧
    (recordOfBucket 0 3600 c6bucket).total_requests = 0 ∧
    (recordOfBucket 0 3600 c6bucket).max_requests_per_hour = 7 ∧
    (recordOfBucket 0 3600 c6bucket).peak_hours = [5] ∧
    (recordOfBucket 0 3600 c6bucket).peak_hour = some "2025-01-01T05:00:00".data := by
  have hd : hourlyDistribution c6bucket.by_hour = [(5, 7)] := by decide
  refine ⟨rfl, rfl, rfl, ?_, rfl⟩
  show peakHoursOf c6bucket.by_hour = [5]
  simp [peakHoursOf, peakTop5, sortedByCount, hd, List.mergeSort_singleton]

/-! ### Claim C10: peak-hours selection -/

theorem addHour_map_fst (l : List (Int × Nat)) (h : Int) (c : Nat) :
    (addHour l h c).map Prod.fst =
      if l.any (fun p => p.1 == h) then l.map Prod.fst
      else l.map Prod.fst ++ [h] := by
  unfold addHour
  by_cases hc : l.any (fun p => p.1 == h)
  · rw [if_pos hc, if_pos hc, List.map_map]
    apply List.map_congr_left
    intro p _
    by_cases hp : p.1 = h <;> simp [hp]
  · rw [if_neg hc, if_neg hc]
    simp

theorem nodup_fst_addHour (l : List (Int × Nat)) (h : Int) (c : Nat)
    (hnd : (l.map Prod.fst).Nodup) : ((addHour l h c).map Prod.fst).Nodup := by
  rw [addHour_map_fst]
  by_cases hc : l.any (fun p => p.1 == h)
  · rw [if_pos hc]; exact hnd
  · rw [if_neg hc]
    rw [List.nodup_append]
    refine ⟨hnd, List.nodup_singleton h, ?_⟩
    intro x hx hxh
    rw [List.mem_singleton] at hxh
    subst hxh
    obtain ⟨p, hp, hpx⟩ := List.mem_map.mp hx
    rw [Bool.not_eq_true, List.any_eq_false] at hc
    exact hc p hp (by simp [hpx])

theorem mem_fst_addHour {l : List (Int × Nat)} {h x : Int} {c : Nat}
    (hx : x ∈ (addHour l h c).map Prod.fst) :
    x ∈ l.map Prod.fst ∨ x = h := by
  rw [addHour_map_fst] at hx
  by_cases hc : l.any (fun p => p.1 == h)
  · rw [if_pos hc] at hx; exact Or.inl hx
  · rw [if_neg hc] at hx
    rcases List.mem_append.mp hx with hx | hx
    · exact Or.inl hx
    · exact Or.inr (List.mem_singleton.mp hx)

theorem nodup_fst_hdStep (acc : List (Int × Nat)) (b : HourBucket)
    (hnd : (acc.map Prod.fst).Nodup) : ((hdStep acc b).map Prod.fst).Nodup := by
  unfold hdStep
  by_cases he : (b.key_as_string.getD []).isEmpty
  · rw [if_pos he]; exact hnd
  · rw [if_neg he]
    cases hx : extractHour (b.key_as_string.getD []) with
    | none => exact hnd
    | some h => exact nodup_fst_addHour acc h b.doc_count hnd

theorem mem_fst_hdStep {acc : List (Int × Nat)} {b : HourBucket} {x : Int}
    (hx : x ∈ (hdStep acc b).map Prod.fst) :
    x ∈ acc.map Prod.fst ∨ extractHour (b.key_as_string.getD []) = some x := by
  unfold hdStep at hx
  by_cases he : (b.key_as_string.getD []).isEmpty
  · rw [if_pos he] at hx; exact Or.inl hx
  · rw [if_neg he] at hx
    revert hx
    cases hxe : extractHour (b.key_as_string.getD []) with
    | none => exact fun hx => Or.inl hx
    | some h =>
      intro hx
      rcases mem_fst_addHour hx with hmem | hxh
      · exact Or.inl hmem
      · exact Or.inr (by rw [hxh])

theorem nodup_fst_foldl_hdStep (bh : List HourBucket) (acc : List (Int × Nat))
    (hnd : (acc.map Prod.fst).Nodup) :
    ((bh.foldl hdStep acc).map Prod.fst).Nodup := by
  induction bh generalizing acc with
  | nil => exact hnd
  | cons b t ih => exact ih (hdStep acc b) (nodup_fst_hdStep acc b hnd)

theorem nodup_fst_hourlyDistribution (bh : List HourBucket) :
    ((hourlyDistribution bh).map Prod.fst).Nodup :=
  nodup_fst_foldl_hdStep bh [] List.nodup_nil

theorem mem_fst_foldl_hdStep {bh : List HourBucket} {acc : List (Int × Nat)} {x : Int}
    (hx : x ∈ (bh.foldl hdStep acc).map Prod.fst) :
    x ∈ acc.map Prod.fst ∨
      ∃ b ∈ bh, extractHour (b.key_as_string.getD []) = some x := by
  induction bh generalizing acc with
  | nil => exact Or.inl hx
  | cons b t ih =>
    rcases ih hx with hmem | ⟨b', hb', he⟩
    · rcases mem_fst_hdStep hmem with hmem' | he
      · exact Or.inl hmem'
      · exact Or.inr ⟨b, List.mem_cons_self _ _, he⟩
    · exact Or.inr ⟨b', List.mem_cons_of_mem _ hb', he⟩

theorem mem_fst_hourlyDistribution {bh : List HourBucket} {x : Int}
    (hx : x ∈ (hourlyDistribution bh).map Prod.fst) :
    ∃ b ∈ bh, extractHour (b.key_as_string.getD []) = some x := by
  unfold hourlyDistribution at hx
  rcases mem_fst_foldl_hdStep hx with hmem | hgoal
  · simp at hmem
  · exact hgoal

theorem sortedByCount_perm (bh : List HourBucket) :
    (sortedByCount bh).Perm (hourlyDistribution bh) :=
  List.mergeSort_perm _ _

theorem sortedByCount_pairwise (bh : List HourBucket) :
    List.Pairwise (fun a b : Int × Nat => b.2 ≤ a.2) (sortedByCount bh) := by
  have h := @List.sorted_mergeSort (Int × Nat) (fun a b => decide (b.2 ≤ a.2))
    (fun a b c h1 h2 => by
      simp only [decide_eq_true_eq] at *
      omega)
    (fun a b => by
      simp only [Bool.or_eq_true, decide_eq_true_eq]
      omega)
    (hourlyDistribution bh)
  exact List.Pairwise.imp (fun h => by simpa using h) h

/-- C10 (amended): for every aggregator record, `peak_hours` is the
ascending-sorted, duplicate-free selection of at most five keys of the
hour-of-day histogram, chosen so that every unselected key's accumulated
count is at most every selected key's count; each selected value lies in
0..23 **provided** every parsable hour token of the hourly sub-buckets
lies in 0..23 — a malformed timestamp parsing to an out-of-range integer
is propagated, not discarded. -/
theorem c10_peak_hours (bh : List HourBucket) :
    (∀ (s e : ℚ) (b' : ApiBucket),
      (recordOfBucket s e b').peak_hours = peakHoursOf b'.by_hour) ∧
    List.Sorted (· ≤ ·) (peakHoursOf bh) ∧
    (peakHoursOf bh).Nodup ∧
    (peakHoursOf bh).length ≤ 5 ∧
    (∀ h ∈ peakHoursOf bh, h ∈ (hourlyDistribution bh).map Prod.fst) ∧
    ((∀ b ∈ bh, hourTokenOk b = true) → ∀ h ∈ peakHoursOf bh, 0 ≤ h ∧ h ≤ 23) ∧
    (∀ p ∈ hourlyDistribution bh, p.1 ∉ peakHoursOf bh →
      ∀ q ∈ hourlyDistribution bh, q.1 ∈ peakHoursOf bh → p.2 ≤ q.2) := by
  have hperm := sortedByCount_perm bh
  have hpw := sortedByCount_pairwise bh
  have hnd_dist := nodup_fst_hourlyDistribution bh
  have hnd_sorted : ((sortedByCount bh).map Prod.fst).Nodup :=
    ((hperm.map Prod.fst).symm).nodup hnd_dist
  have hmaps : ((sortedByCount bh).take 5).map Prod.fst =
      ((sortedByCount bh).map Prod.fst).take 5 := List.map_take _ _ _
  have hnd_top : (peakTop5 bh).Nodup := by
    show (((sortedByCount bh).take 5).map fun x => x.1).Nodup
    rw [show ((fun x : Int × Nat => x.1)) = Prod.fst from rfl, hmaps]
    exact (List.take_sublist 5 _).nodup hnd_sorted
  have hmem : ∀ h ∈ peakHoursOf bh, h ∈ (hourlyDistribution bh).map Prod.fst := by
    intro h hh
    have h1 : h ∈ peakTop5 bh := List.mem_mergeSort.mp hh
    obtain ⟨p, hp, hpe⟩ := List.mem_map.mp h1
    have hpd : p ∈ hourlyDistribution bh :=
      hperm.mem_iff.mp (List.take_subset 5 _ hp)
    exact hpe ▸ List.mem_map_of_mem Prod.fst hpd
  refine ⟨fun s e b' => rfl, ?_, ?_, ?_, hmem, ?_, ?_⟩
  · have h := @List.sorted_mergeSort Int (fun a b => decide (a ≤ b))
      (fun a b c h1 h2 => by
        simp only [decide_eq_true_eq] at *
        omega)
      (fun a b => by
        simp only [Bool.or_eq_true, decide_eq_true_eq]
        omega)
      (peakTop5 bh)
    exact List.Pairwise.imp (fun h => by simpa using h) h
  · exact ((List.mergeSort_perm (peakTop5 bh) _).symm).nodup hnd_top
  · have h1 : (peakHoursOf bh).length = (peakTop5 bh).length :=
      List.length_mergeSort _
    rw [h1]
    show (((sortedByCount bh).take 5).map fun x => x.1).length ≤ 5
    rw [List.length_map]
    exact List.length_take_le _ _
  · intro hrange h hh
    obtain ⟨b, hb, he⟩ := mem_fst_hourlyDistribution (hmem h hh)
    have hok := hrange b hb
    simp only [hourTokenOk, he, Bool.and_eq_true, decide_eq_true_eq] at hok
    exact hok
  · intro p hp hpnot q hq hqin
    have hq1 : q.1 ∈ peakTop5 bh := List.mem_mergeSort.mp hqin
    obtain ⟨q', hq', hq'eq⟩ := List.mem_map.mp hq1
    have hq'dist : q' ∈ hourlyDistribution bh :=
      hperm.mem_iff.mp (List.take_subset 5 _ hq')
    have hqq' : q = q' :=
      List.inj_on_of_nodup_map hnd_dist hq hq'dist (by rw [hq'eq])
    have hpsorted : p ∈ sortedByCount bh := hperm.mem_iff.mpr hp
    have hpdrop : p ∈ (sortedByCount bh).drop 5 := by
      have hsplit : p ∈ (sortedByCount bh).take 5 ++ (sortedByCount bh).drop 5 := by
        rw [List.take_append_drop]
        exact hpsorted
      rcases List.mem_append.mp hsplit with h5 | h5
      · exfalso
        apply hpnot
        apply List.mem_mergeSort.mpr
        exact List.mem_map.mpr ⟨p, h5, rfl⟩
      · exact h5
    have hpwsplit : List.Pairwise (fun a b : Int × Nat => b.2 ≤ a.2)
        ((sortedByCount bh).take 5 ++ (sortedByCount bh).drop 5) := by
      rw [List.take_append_drop]
      exact hpw
    have hle := (List.pairwise_append.mp hpwsplit).2.2 q' hq' p hpdrop
    rw [hqq']
    exact hle

/-- C10 (witness): the amended statement applied to a concrete well-formed
two-bucket histogram (hours 5 and 9). -/
theorem c10_witness :
    (∀ b ∈ c10wbh, hourTokenOk b = true) ∧
    ((∀ (s e : ℚ) (b' : ApiBucket),
        (recordOfBucket s e b').peak_hours = peakHoursOf b'.by_hour) ∧
      List.Sorted (· ≤ ·) (peakHoursOf c10wbh) ∧
      (peakHoursOf c10wbh).Nodup ∧
      (peakHoursOf c10wbh).length ≤ 5 ∧
      (∀ h ∈ peakHoursOf c10wbh, h ∈ (hourlyDistribution c10wbh).map Prod.fst) ∧
      ((∀ b ∈ c10wbh, hourTokenOk b = true) →
        ∀ h ∈ peakHoursOf c10wbh, 0 ≤ h ∧ h ≤ 23) ∧
      (∀ p ∈ hourlyDistribution c10wbh, p.1 ∉ peakHoursOf c10wbh →
        ∀ q ∈ hourlyDistribution c10wbh, q.1 ∈ peakHoursOf c10wbh → p.2 ≤ q.2)) :=
  ⟨by decide, c10_peak_hours c10wbh⟩

/-- C10 (counterexample): an hourly sub-bucket whose timestamp reads
`...T99:00:00` contributes the hour 99 — there is no 0..23 range check in
the peak-hours extraction, so the claim that every element of
`peak_hours` lies in 0..23 for arbitrary (malformed) timestamps is
false. -/
theorem c10_counterexample :
    (recordOfBucket 0 3600 c10bucket).peak_hours = [99] ∧
    ¬(∀ h ∈ (recordOfBucket 0 3600 c10bucket).peak_hours, 0 ≤ h ∧ h ≤ 23) := by
  have h99 : hourlyDistribution c10bucket.by_hour = [(99, 5)] := by decide
  have hpk : (recordOfBucket 0 3600 c10bucket).peak_hours = [99] := by
    show peakHoursOf c10bucket.by_hour = [99]
    simp [peakHoursOf, peakTop5, sortedByCount, h99, List.mergeSort_singleton]
  refine ⟨hpk, ?_⟩
  rw [hpk]
  intro hcontra
  have h23 := hcontra 99 (List.mem_singleton.mpr rfl)
  omega

/-! ### Claim C7: sensitive-keyword scan -/

theorem initCounts_aux (kws : List Chars) (acc : List (Chars × Counts))
    (hnd : kws.Nodup)
    (hdisj : ∀ kw ∈ kws, acc.any (fun p => p.1 == kw) = false) :
    kws.foldl (fun acc kw =>
        if acc.any (fun p => p.1 == kw) then acc else acc ++ [(kw, ⟨0, 0, 0⟩)]) acc
      = acc ++ kws.map (fun kw => (kw, (⟨0, 0, 0⟩ : Counts))) := by
  induction kws generalizing acc with
  | nil => rw [List.foldl_nil, List.map_nil, List.append_nil]
  | cons kw t ih =>
    have hkw : acc.any (fun p => p.1 == kw) = false :=
      hdisj kw (List.mem_cons_self _ _)
    have hnd' := hnd.of_cons
    have hhead : kw ∉ t := (List.nodup_cons.mp hnd).1
    have hdisj' : ∀ kw' ∈ t,
        ((acc ++ [(kw, (⟨0, 0, 0⟩ : Counts))]).any fun p => p.1 == kw') = false := by
      intro kw' hkw'
      rw [List.any_append]
      have h1 : acc.any (fun p => p.1 == kw') = false :=
        hdisj kw' (List.mem_cons_of_mem _ hkw')
      have h2 : ([((kw, (⟨0, 0, 0⟩ : Counts)))].any (fun p => p.1 == kw')) = false := by
        simp only [List.any_cons, List.any_nil, Bool.or_false]
        exact beq_eq_false_iff_ne.mpr (fun hEq => hhead (hEq ▸ hkw'))
      rw [h1, h2]
      rfl
    have hres := ih (acc ++ [((kw, (⟨0, 0, 0⟩ : Counts)))]) hnd' hdisj'
    simp only [List.foldl_cons, hkw, Bool.false_eq_true, if_false]
    rw [hres]
    simp

theorem initCounts_eq (kws : List Chars) (hnd : kws.Nodup) :
    initCounts kws = kws.map (fun kw => (kw, (⟨0, 0, 0⟩ : Counts))) := by
  unfold initCounts
  rw [initCounts_aux kws [] hnd (fun kw _ => rfl)]
  rfl

theorem foldl_mapUpdate (cnd : Chars → Bool) (bump : Chars → Counts → Counts)
    (ks : List Chars) (hnd : ks.Nodup) (m : List (Chars × Counts)) :
    ks.foldl (fun m kw =>
        if cnd kw then
          m.map (fun p => if p.1 == kw then (p.1, bump kw p.2) else p)
        else m) m
      = m.map (fun p => if ks.contains p.1 && cnd p.1 then (p.1, bump p.1 p.2) else p) := by
  induction ks generalizing m with
  | nil => simp
  | cons kw t ih =>
    have hhead : kw ∉ t := (List.nodup_cons.mp hnd).1
    have hnd' := hnd.of_cons
    have hcontkw : t.contains kw = false := by
      rw [← Bool.not_eq_true, List.contains_iff_exists_mem_beq]
      rintro ⟨x, hx, hbx⟩
      rw [beq_iff_eq] at hbx
      rw [← hbx] at hx
      exact hhead hx
    simp only [List.foldl_cons]
    by_cases hc : cnd kw = true
    · rw [if_pos hc, ih hnd', List.map_map]
      apply List.map_congr_left
      intro p _
      by_cases hpk : p.1 = kw
      · simp only [Function.comp, hpk, beq_self_eq_true, if_true, hcontkw,
          Bool.false_and, Bool.false_eq_true, if_false, List.contains_cons,
          Bool.true_or, Bool.true_and, hc, if_true]
      · have hbk : (p.1 == kw) = false := beq_eq_false_iff_ne.mpr hpk
        simp only [Function.comp, hbk, Bool.false_eq_true, if_false,
          List.contains_cons, Bool.false_or]
    · have hc' : cnd kw = false := eq_false_of_ne_true hc
      rw [if_neg hc, ih hnd']
      apply List.map_congr_left
      intro p _
      by_cases hpk : p.1 = kw
      · simp [hpk, hcontkw, hc', List.contains_cons]
      · have hbk : (p.1 == kw) = false := beq_eq_false_iff_ne.mpr hpk
        simp [List.contains_cons, hbk, hpk]

theorem hitStep_eq (kws : List Chars) (hnd : kws.Nodup)
    (m : List (Chars × Counts)) (hit : Hit) :
    hitStep kws m hit = m.map (fun p =>
      if kws.contains p.1 && (foundHeader p.1 hit || foundBody p.1 hit) then
        (p.1, { count := p.2.count + 1,
                in_headers := p.2.in_headers + (if foundHeader p.1 hit then 1 else 0),
                in_body := p.2.in_body + (if foundBody p.1 hit then 1 else 0) })
      else p) :=
  foldl_mapUpdate (fun kw => foundHeader kw hit || foundBody kw hit)
    (fun kw c => { count := c.count + 1,
                   in_headers := c.in_headers + (if foundHeader kw hit then 1 else 0),
                   in_body := c.in_body + (if foundBody kw hit then 1 else 0) })
    kws hnd m

theorem foldl_hitStep_eq (kws : List Chars) (hnd : kws.Nodup) (hits : List Hit)
    (f : Chars → Counts) :
    hits.foldl (hitStep kws) (kws.map (fun kw => (kw, f kw)))
      = kws.map (fun kw => (kw,
          { count := (f kw).count + hits.countP (fun h => foundHeader kw h || foundBody kw h),
            in_headers := (f kw).in_headers + hits.countP (fun h => foundHeader kw h),
            in_body := (f kw).in_body + hits.countP (fun h => foundBody kw h) } )) := by
  induction hits generalizing f with
  | nil =>
    simp only [List.foldl_nil, List.countP_nil]
    apply List.map_congr_left
    intro kw _
    simp
  | cons h t ih =>
    rw [List.foldl_cons, hitStep_eq kws hnd]
    have hmap : (kws.map (fun kw => (kw, f kw))).map (fun p =>
        if kws.contains p.1 && (foundHeader p.1 h || foundBody p.1 h) then
          (p.1, { count := p.2.count + 1,
                  in_headers := p.2.in_headers + (if foundHeader p.1 h then 1 else 0),
                  in_body := p.2.in_body + (if foundBody p.1 h then 1 else 0) })
        else p)
        = kws.map (fun kw => (kw,
            if foundHeader kw h || foundBody kw h then
              { count := (f kw).count + 1,
                in_headers := (f kw).in_headers + (if foundHeader kw h then 1 else 0),
                in_body := (f kw).in_body + (if foundBody kw h then 1 else 0) }
            else f kw)) := by
      rw [List.map_map]
      apply List.map_congr_left
      intro kw hkw
      have hcont : kws.contains kw = true := by
        rw [List.contains_iff_exists_mem_beq]
        exact ⟨kw, hkw, by simp⟩
      by_cases hf : (foundHeader kw h || foundBody kw h) = true
      · simp [Function.comp, hcont, hf, hkw]
      · have hf' := eq_false_of_ne_true hf
        simp [Function.comp, hcont, hf', hkw]
    rw [hmap, ih]
    apply List.map_congr_left
    intro kw hkw
    by_cases hH : foundHeader kw h = true <;> by_cases hB : foundBody kw h = true <;>
      simp [List.countP_cons, hH, hB, eq_false_of_ne_true, Counts.mk.injEq] <;>
      omega

theorem countKeywords_eq (kws : List Chars) (hits : List Hit) (hnd : kws.Nodup) :
    countKeywords kws hits = kws.map (fun kw =>
      (kw, { count := hits.countP (fun h => foundHeader kw h || foundBody kw h),
             in_headers := hits.countP (fun h => foundHeader kw h),
             in_body := hits.countP (fun h => foundBody kw h) })) := by
  unfold countKeywords
  rw [initCounts_eq kws hnd, foldl_hitStep_eq kws hnd hits (fun _ => ⟨0, 0, 0⟩)]
  apply List.map_congr_left
  intro kw _
  simp

/-- C7 (amended): for a duplicate-free, case-folded keyword list (as the
loader produces), the scan's keyword mapping contains exactly the keywords
matching at least one sampled record; per entry, `count` counts records
matching in either blob (once per record even when both match),
`in_headers` and `in_body` count the per-blob matches, the percentage is
`count / total × 100` rounded to two decimals, and `has_sensitive_data`
holds iff the mapping is nonempty. A duplicated keyword is tallied once
per occurrence, so the unrestricted claim fails. -/
theorem c7_scan (kws : List Chars) (hits : List Hit)
    (hnd : kws.Nodup) (hlc : ∀ kw ∈ kws, lowerChars kw = kw) :
    ((scanHits kws hits).total_logs_checked = hits.length) ∧
    ((scanHits kws hits).sensitive_keywords.map Prod.fst =
      kws.filter (fun kw => decide (0 < hits.countP (matchesHit kw)))) ∧
    (∀ kw e, (kw, e) ∈ (scanHits kws hits).sensitive_keywords →
      e.count = hits.countP (matchesHit kw) ∧
      e.in_headers = hits.countP (matchesHeader kw) ∧
      e.in_body = hits.countP (matchesBody kw) ∧
      e.percentage = round2 ((hits.countP (matchesHit kw) : ℚ) / (hits.length : ℚ) * 100) ∧
      e.exists_ = true) ∧
    ((scanHits kws hits).has_sensitive_data = true ↔
      (scanHits kws hits).sensitive_keywords ≠ []) := by
  have hfunHit : ∀ kw ∈ kws,
      matchesHit kw = (fun h => foundHeader kw h || foundBody kw h) := fun kw hkw =>
    funext fun h => by
      unfold matchesHit matchesHeader matchesBody foundHeader foundBody
      rw [hlc kw hkw]
  have hfunH : ∀ kw ∈ kws, matchesHeader kw = foundHeader kw := fun kw hkw =>
    funext fun h => by
      unfold matchesHeader foundHeader
      rw [hlc kw hkw]
  have hfunB : ∀ kw ∈ kws, matchesBody kw = foundBody kw := fun kw hkw =>
    funext fun h => by
      unfold matchesBody foundBody
      rw [hlc kw hkw]
  have hck := countKeywords_eq kws hits hnd
  have hkp : (scanHits kws hits).sensitive_keywords =
      (kws.filter (fun kw =>
          decide (0 < hits.countP (fun h => foundHeader kw h || foundBody kw h)))).map
        (fun kw => (kw,
          { count := hits.countP (fun h => foundHeader kw h || foundBody kw h)
            percentage := round2 (if hits.length > 0 then
              ((hits.countP (fun h => foundHeader kw h || foundBody kw h) : ℚ)) /
                (hits.length : ℚ) * 100 else 0)
            in_headers := hits.countP (fun h => foundHeader kw h)
            in_body := hits.countP (fun h => foundBody kw h)
            exists_ := true : KwEntry })) := by
    show (((countKeywords kws hits).filter fun p => 0 < p.2.count).map _) = _
    rw [hck, List.filter_map, List.map_map]
    rfl
  refine ⟨rfl, ?_, ?_, ?_⟩
  · rw [hkp, List.map_map]
    have hmapid : ∀ (l : List Chars) (f : Chars → KwEntry),
        l.map (Prod.fst ∘ fun kw => (kw, f kw)) = l := by
      intro l f
      simp [Function.comp_def]
    rw [hmapid]
    apply List.filter_congr
    intro kw hkw
    rw [hfunHit kw hkw]
  · rw [hkp]
    intro kw e hin
    obtain ⟨kw', hkw'f, heq⟩ := List.mem_map.mp hin
    obtain ⟨hkw', hpos⟩ := List.mem_filter.mp hkw'f
    rw [Prod.mk.injEq] at heq
    obtain ⟨hk, he⟩ := heq
    subst hk
    subst he
    have hposn : 0 < hits.countP (fun h => foundHeader kw' h || foundBody kw' h) :=
      of_decide_eq_true hpos
    have hlenpos : 0 < hits.length := by
      obtain ⟨a, ha, _⟩ := List.countP_pos.mp hposn
      exact List.length_pos.mpr (List.ne_nil_of_mem ha)
    refine ⟨by rw [hfunHit kw' hkw'], by rw [hfunH kw' hkw'], by rw [hfunB kw' hkw'], ?_, rfl⟩
    rw [hfunHit kw' hkw']
    rw [if_pos hlenpos]
  · show (decide (0 < (scanHits kws hits).sensitive_keywords.length) = true) ↔ _
    rw [decide_eq_true_eq, List.length_pos]

/-- C7 (witness): the amended scan contract applied to the lone lowercase
keyword `tc` over one record carrying upper-case `TC` in both blobs. -/
theorem c7_witness :
    (["tc".data].Nodup) ∧
    (∀ kw ∈ ["tc".data], lowerChars kw = kw) ∧
    ((scanHits ["tc".data] [tcBothHit]).total_logs_checked = [tcBothHit].length ∧
     ((scanHits ["tc".data] [tcBothHit]).sensitive_keywords.map Prod.fst =
       ["tc".data].filter (fun kw => decide (0 < [tcBothHit].countP (matchesHit kw)))) ∧
     (∀ kw e, (kw, e) ∈ (scanHits ["tc".data] [tcBothHit]).sensitive_keywords →
       e.count = [tcBothHit].countP (matchesHit kw) ∧
       e.in_headers = [tcBothHit].countP (matchesHeader kw) ∧
       e.in_body = [tcBothHit].countP (matchesBody kw) ∧
       e.percentage = round2 (([tcBothHit].countP (matchesHit kw) : ℚ) /
         (([tcBothHit].length : ℕ) : ℚ) * 100) ∧
       e.exists_ = true) ∧
     ((scanHits ["tc".data] [tcBothHit]).has_sensitive_data = true ↔
       (scanHits ["tc".data] [tcBothHit]).sensitive_keywords ≠ [])) :=
  ⟨by decide, by decide, c7_scan ["tc".data] [tcBothHit] (by decide) (by decide)⟩

/-- C7 (counterexample): with the duplicated keyword list `tc, tc`, a
single record matching once is tallied with `count = 2` (each list
occurrence increments the shared entry), and with the non-case-folded
keyword `TC` a record that matches case-insensitively yields an empty
mapping — the per-keyword count and the "exactly the matching keywords"
clause fail for arbitrary keyword lists. -/
theorem c7_counterexample :
    (((scanHits ["tc".data, "tc".data] [tcHit]).sensitive_keywords.lookup "tc".data).map
        KwEntry.count = some 2) ∧
    [tcHit].countP (matchesHit "tc".data) = 1 ∧
    (scanHits ["TC".data] [tcHit]).sensitive_keywords = [] ∧
    [tcHit].countP (matchesHit "TC".data) = 1 := by
  refine ⟨rfl, by decide, rfl, by decide⟩
